import Mathlib

/-!
# USB Video Class gadget function (`drivers/usb/gadget/f_uvc.c`)

A shallow embedding of the descriptor composer `uvc_copy_descriptors`, of the
interface callbacks `uvc_function_get_alt`, `uvc_function_set_alt`,
`uvc_function_setup`, `uvc_function_ep0_complete` and `uvc_function_disable`, and of
the registration path `uvc_bind_config`, `uvc_function_bind` and
`uvc_function_unbind`, followed by the properties proved about them.

Conventions of the embedding
* a byte is a `Nat`; a store into a `__u8` field from a wider integer reduces the
  value modulo 256, a store into a `__le16` field reduces it modulo 65536;
* an `unsigned int` variable is a `Nat` reduced modulo `2 ^ 32` after every update;
* a descriptor is the list of bytes of the object a descriptor pointer points to;
* a NULL terminated array of descriptor pointers is the list of the descriptors
  before the terminating NULL;
* `printk` calls are logging only and are left out.
-/

set_option autoImplicit false

namespace FUvc

/-! ## Constants taken from the kernel headers

The headers `linux/errno.h`, `linux/usb/ch9.h` and `linux/usb/video.h` are not among the
sources. The constants, descriptor sizes and field offsets below are the ones these
headers declare, which are those of the USB 2.0 and USB Video Class 1.0 specifications. -/

/-- Value of `EINVAL` in `linux/errno.h`. -/
def EINVAL : Int := 22

/-- Descriptor type and class codes of `linux/usb/ch9.h`. -/
def USB_DT_INTERFACE : Nat := 0x04

/-- Descriptor type `USB_DT_ENDPOINT` of `linux/usb/ch9.h`. -/
def USB_DT_ENDPOINT : Nat := 0x05

/-- Descriptor type `USB_DT_INTERFACE_ASSOCIATION` of `linux/usb/ch9.h`. -/
def USB_DT_INTERFACE_ASSOCIATION : Nat := 0x0b

/-- Descriptor type `USB_DT_CS_ENDPOINT` (`USB_TYPE_CLASS | USB_DT_ENDPOINT`). -/
def USB_DT_CS_ENDPOINT : Nat := 0x25

/-- Size `USB_DT_INTERFACE_SIZE` of a standard interface descriptor. -/
def USB_DT_INTERFACE_SIZE : Nat := 9

/-- Size `USB_DT_ENDPOINT_SIZE` of a standard (non audio) endpoint descriptor. -/
def USB_DT_ENDPOINT_SIZE : Nat := 7

/-- Class code `USB_CLASS_VIDEO`. -/
def USB_CLASS_VIDEO : Nat := 0x0e

/-- Direction bit `USB_DIR_IN`. -/
def USB_DIR_IN : Nat := 0x80

/-- Transfer type `USB_ENDPOINT_XFER_ISOC`. -/
def USB_ENDPOINT_XFER_ISOC : Nat := 1

/-- Transfer type `USB_ENDPOINT_XFER_INT`. -/
def USB_ENDPOINT_XFER_INT : Nat := 3

/-- Subclass `UVC_SC_VIDEOCONTROL` of `linux/usb/video.h`. -/
def UVC_SC_VIDEOCONTROL : Nat := 0x01

/-- Subclass `UVC_SC_VIDEOSTREAMING` of `linux/usb/video.h`. -/
def UVC_SC_VIDEOSTREAMING : Nat := 0x02

/-- Subclass `UVC_SC_VIDEO_INTERFACE_COLLECTION` of `linux/usb/video.h`. -/
def UVC_SC_VIDEO_INTERFACE_COLLECTION : Nat := 0x03

/-- Endpoint subtype `UVC_EP_INTERRUPT` of `linux/usb/video.h`. -/
def UVC_EP_INTERRUPT : Nat := 0x03

/-- Size `UVC_DT_CONTROL_ENDPOINT_SIZE` of the class-specific control endpoint descriptor. -/
def UVC_DT_CONTROL_ENDPOINT_SIZE : Nat := 5

/-- Size macro `UVC_DT_HEADER_SIZE(n)` of `linux/usb/video.h`: a video control header
that lists `n` streaming interfaces. -/
def UVC_DT_HEADER_SIZE (n : Nat) : Nat := 12 + n

/-- Size macro `UVC_DT_INPUT_HEADER_SIZE(n, p)` of `linux/usb/video.h`: a streaming
input header for `n` formats with `p` control bytes each. -/
def UVC_DT_INPUT_HEADER_SIZE (n p : Nat) : Nat := 13 + n * p

/-- Byte offset of `wTotalLength` in the packed `struct uvc_header_descriptor`
(`bLength`, `bDescriptorType`, `bDescriptorSubType`, `bcdUVC` (2 bytes), `wTotalLength`
(2 bytes), `dwClockFrequency` (4 bytes), `bInCollection`, `baInterfaceNr[]`). -/
def VC_HEADER_wTotalLength : Nat := 5

/-- Byte offset of `bInCollection` in `struct uvc_header_descriptor`. -/
def VC_HEADER_bInCollection : Nat := 11

/-- Byte offset of `baInterfaceNr[0]` in `struct uvc_header_descriptor`. -/
def VC_HEADER_baInterfaceNr : Nat := 12

/-- Byte offset of `wTotalLength` in the packed `struct uvc_input_header_descriptor`
(`bLength`, `bDescriptorType`, `bDescriptorSubType`, `bNumFormats`, `wTotalLength`
(2 bytes), `bEndpointAddress`, `bmInfo`, ...). -/
def VS_INPUT_HEADER_wTotalLength : Nat := 4

/-- Byte offset of `bEndpointAddress` in `struct uvc_input_header_descriptor`. -/
def VS_INPUT_HEADER_bEndpointAddress : Nat := 6

/-- Byte offset of `bEndpointAddress` in `struct usb_endpoint_descriptor`. -/
def EP_bEndpointAddress : Nat := 2

/-! ## Descriptors -/

/-- The object a `struct usb_descriptor_header *` or `struct uvc_descriptor_header *`
points to, as the list of its bytes. -/
abbrev Descriptor := List Nat

/-- Field `bLength`: the first byte of a descriptor. -/
def bLength (d : Descriptor) : Nat := d.getD 0 0

/-- The bytes `memcpy(mem, src, n)` reads: the first `n` bytes of the source object.
A read past the end of the source object is out of bounds in C; here it yields 0. -/
def memcpy_src (src : List Nat) (n : Nat) : List Nat :=
  (List.range n).map (fun i => src.getD i 0)

/-- The bytes copied for one descriptor, `memcpy(mem, desc, desc->bLength)`. -/
def copy_bytes (d : Descriptor) : List Nat := memcpy_src d (bLength d)

/-- Enumeration `enum usb_device_speed` of `linux/usb/ch9.h`. -/
inductive usb_device_speed where
  | USB_SPEED_UNKNOWN
  | USB_SPEED_LOW
  | USB_SPEED_FULL
  | USB_SPEED_HIGH
  | USB_SPEED_WIRELESS
  | USB_SPEED_SUPER
  deriving DecidableEq, Repr

open usb_device_speed

/-- The fields of the file-scope descriptors `uvc_iad`, `uvc_control_intf`,
`uvc_control_ep`, `uvc_streaming_intf_alt0`, `uvc_streaming_intf_alt1` and
`uvc_streaming_ep` that are assigned at run time (interface numbers and string ids by
`uvc_function_bind` and `uvc_bind_config`, endpoint addresses by `usb_ep_autoconfig`).
Every other field keeps the value of its initialiser. -/
structure uvc_statics where
  iad_bFirstInterface : Nat
  iad_iFunction : Nat
  control_intf_bInterfaceNumber : Nat
  control_intf_iInterface : Nat
  control_ep_bEndpointAddress : Nat
  streaming_intf_alt0_bInterfaceNumber : Nat
  streaming_intf_alt0_iInterface : Nat
  streaming_intf_alt1_bInterfaceNumber : Nat
  streaming_intf_alt1_iInterface : Nat
  streaming_ep_bEndpointAddress : Nat
  deriving DecidableEq, Repr

/-- The values of the initialisers of the file-scope descriptors. -/
def uvc_statics_init : uvc_statics :=
  { iad_bFirstInterface := 0
    iad_iFunction := 0
    control_intf_bInterfaceNumber := 0
    control_intf_iInterface := 0
    control_ep_bEndpointAddress := USB_DIR_IN
    streaming_intf_alt0_bInterfaceNumber := 1
    streaming_intf_alt0_iInterface := 0
    streaming_intf_alt1_bInterfaceNumber := 1
    streaming_intf_alt1_iInterface := 0
    streaming_ep_bEndpointAddress := USB_DIR_IN }

/-- Descriptor `uvc_iad` (`struct usb_interface_assoc_descriptor`, 8 bytes). -/
def uvc_iad (g : uvc_statics) : Descriptor :=
  [8, USB_DT_INTERFACE_ASSOCIATION, g.iad_bFirstInterface, 2, USB_CLASS_VIDEO,
   UVC_SC_VIDEO_INTERFACE_COLLECTION, 0x00, g.iad_iFunction]

/-- Descriptor `uvc_control_intf` (`struct usb_interface_descriptor`). -/
def uvc_control_intf (g : uvc_statics) : Descriptor :=
  [USB_DT_INTERFACE_SIZE, USB_DT_INTERFACE, g.control_intf_bInterfaceNumber, 0, 1,
   USB_CLASS_VIDEO, UVC_SC_VIDEOCONTROL, 0x00, g.control_intf_iInterface]

/-- Descriptor `uvc_control_ep` (`struct usb_endpoint_descriptor`; the object has the two
audio-only bytes `bRefresh` and `bSynchAddress` after the 7 bytes that `bLength` covers). -/
def uvc_control_ep (g : uvc_statics) : Descriptor :=
  [USB_DT_ENDPOINT_SIZE, USB_DT_ENDPOINT, g.control_ep_bEndpointAddress,
   USB_ENDPOINT_XFER_INT, 16, 0, 8, 0, 0]

/-- Descriptor `uvc_control_cs_ep` (`struct uvc_control_endpoint_descriptor`). -/
def uvc_control_cs_ep : Descriptor :=
  [UVC_DT_CONTROL_ENDPOINT_SIZE, USB_DT_CS_ENDPOINT, UVC_EP_INTERRUPT, 16, 0]

/-- Descriptor `uvc_streaming_intf_alt0`. -/
def uvc_streaming_intf_alt0 (g : uvc_statics) : Descriptor :=
  [USB_DT_INTERFACE_SIZE, USB_DT_INTERFACE, g.streaming_intf_alt0_bInterfaceNumber, 0, 0,
   USB_CLASS_VIDEO, UVC_SC_VIDEOSTREAMING, 0x00, g.streaming_intf_alt0_iInterface]

/-- Descriptor `uvc_streaming_intf_alt1`. -/
def uvc_streaming_intf_alt1 (g : uvc_statics) : Descriptor :=
  [USB_DT_INTERFACE_SIZE, USB_DT_INTERFACE, g.streaming_intf_alt1_bInterfaceNumber, 1, 1,
   USB_CLASS_VIDEO, UVC_SC_VIDEOSTREAMING, 0x00, g.streaming_intf_alt1_iInterface]

/-- Descriptor `uvc_streaming_ep` (`wMaxPacketSize = cpu_to_le16(512)`). -/
def uvc_streaming_ep (g : uvc_statics) : Descriptor :=
  [USB_DT_ENDPOINT_SIZE, USB_DT_ENDPOINT, g.streaming_ep_bEndpointAddress,
   USB_ENDPOINT_XFER_ISOC, 0, 2, 1, 0, 0]

/-- Array `uvc_fs_streaming`. -/
def uvc_fs_streaming (g : uvc_statics) : List Descriptor :=
  [uvc_streaming_intf_alt1 g, uvc_streaming_ep g]

/-- Array `uvc_hs_streaming`. -/
def uvc_hs_streaming (g : uvc_statics) : List Descriptor :=
  [uvc_streaming_intf_alt1 g, uvc_streaming_ep g]

/-! ## The function instance -/

/-- Modelled from the spec: `enum uvc_state` is declared in `uvc.h`, which is not among
the sources; its three constants `UVC_STATE_DISCONNECTED`, `UVC_STATE_CONNECTED` and
`UVC_STATE_STREAMING` are the states Disconnected, Connected and Streaming of section 3
of the specification. -/
inductive uvc_state where
  | UVC_STATE_DISCONNECTED
  | UVC_STATE_CONNECTED
  | UVC_STATE_STREAMING
  deriving DecidableEq, Repr

open uvc_state

/-- Member `desc` of `struct uvc_device`: the three class-specific descriptor chains
handed to `uvc_bind_config`. -/
structure uvc_desc where
  control : List Descriptor
  fs_streaming : List Descriptor
  hs_streaming : List Descriptor
  deriving DecidableEq, Repr

/-- Member `video` of `struct uvc_device`, reduced to the endpoint pointer `ep`
(`none` is the NULL pointer, `some e` the endpoint with handle `e`). -/
structure uvc_video where
  ep : Option Nat
  deriving DecidableEq, Repr

/-- The members of `struct uvc_device` that `uvc_copy_descriptors`,
`uvc_function_get_alt` and `uvc_function_set_alt` read or write, plus `event_setup_out`.
The structure is declared in `uvc.h`, which is not among the sources; the members are
taken from their uses in `f_uvc.c` (`control_intf` and `streaming_intf` are compared
with and assigned from `unsigned` values). -/
structure uvc_device where
  state : uvc_state
  control_intf : Nat
  streaming_intf : Nat
  video : uvc_video
  event_setup_out : Nat
  desc : uvc_desc
  deriving DecidableEq, Repr

/-! ## Descriptor composition: `uvc_copy_descriptors` -/

/-- Reduction of a value to `unsigned int`. -/
def u32 (n : Nat) : Nat := n % 2 ^ 32

/-- The counters of the sizing pass: the size of the chain being walked
(`control_size` or `streaming_size`), `bytes` and `n_desc`. -/
structure sizing where
  size : Nat
  bytes : Nat
  n_desc : Nat
  deriving DecidableEq, Repr

/-- Body of the first two sizing loops:
`size += (*src)->bLength; bytes += (*src)->bLength; n_desc++;`. -/
def count_cls (a : sizing) (d : Descriptor) : sizing :=
  { size := u32 (a.size + bLength d)
    bytes := u32 (a.bytes + bLength d)
    n_desc := u32 (a.n_desc + 1) }

/-- Body of the third sizing loop: `bytes += (*src)->bLength; n_desc++;`. -/
def count_std (a : sizing) (d : Descriptor) : sizing :=
  { size := a.size
    bytes := u32 (a.bytes + bLength d)
    n_desc := u32 (a.n_desc + 1) }

/-- The state of the copy pass. Offsets are relative to the start of the byte area,
which follows the `n_desc + 1` index slots of the allocation.
* `mem` the contents of the byte area and of the memory behind it;
* `cur` the C variable `mem`, as an offset;
* `dst` the pointers stored so far through `*dst++` (`some o` points to offset `o`);
* `hi` one past the highest offset written so far (bookkeeping, not a C variable). -/
structure copy_state where
  mem : Nat → Nat
  cur : Nat
  dst : List (Option Nat)
  hi : Nat

/-- Function `memcpy(dst, src, n)` on the byte area. -/
def memcpy (m : Nat → Nat) (dst : Nat) (src : List Nat) (n : Nat) : Nat → Nat :=
  fun a => if dst ≤ a ∧ a < dst + n then src.getD (a - dst) 0 else m a

/-- A store into a `__u8` field at offset `a`. -/
def store8 (m : Nat → Nat) (a v : Nat) : Nat → Nat :=
  fun x => if x = a then v else m x

/-- A store of `cpu_to_le16(v)` into a `__le16` field at offset `a`. -/
def store_le16 (m : Nat → Nat) (a v : Nat) : Nat → Nat :=
  store8 (store8 m a (v % 65536 % 256)) (a + 1) (v % 65536 / 256)

/-- Macro `UVC_COPY_DESCRIPTOR(mem, dst, desc)`. -/
def UVC_COPY_DESCRIPTOR (s : copy_state) (desc : Descriptor) : copy_state :=
  { mem := memcpy s.mem s.cur desc (bLength desc)
    cur := s.cur + bLength desc
    dst := s.dst ++ [some s.cur]
    hi := if bLength desc = 0 then s.hi else max s.hi (s.cur + bLength desc) }

/-- Macro `UVC_COPY_DESCRIPTORS(mem, dst, src)`: the loop over a NULL terminated array. -/
def UVC_COPY_DESCRIPTORS (s : copy_state) (src : List Descriptor) : copy_state :=
  src.foldl UVC_COPY_DESCRIPTOR s

/-- The three stores through `uvc_control_header`, which points to offset `h`. -/
def patch_control_header (s : copy_state) (h control_size streaming_intf : Nat) :
    copy_state :=
  { s with
    mem := store8 (store8 (store_le16 s.mem (h + VC_HEADER_wTotalLength) control_size)
             (h + VC_HEADER_bInCollection) 1)
             (h + VC_HEADER_baInterfaceNr) (streaming_intf % 256)
    hi := max s.hi (h + VC_HEADER_baInterfaceNr + 1) }

/-- The two stores through `uvc_streaming_header`, which points to offset `h`. -/
def patch_streaming_header (s : copy_state) (h streaming_size bEndpointAddress : Nat) :
    copy_state :=
  { s with
    mem := store8 (store_le16 s.mem (h + VS_INPUT_HEADER_wTotalLength) streaming_size)
             (h + VS_INPUT_HEADER_bEndpointAddress) bEndpointAddress
    hi := max s.hi (h + VS_INPUT_HEADER_bEndpointAddress + 1) }

/-- What `uvc_copy_descriptors` leaves behind when `kmalloc` succeeds.
* `n_desc`, `bytes` the values of the sizing pass, from which the size of the requested
  block is computed (`kmalloc_size` below);
* `hdr` the contents of the index as written, the terminating NULL (`none`) included;
* `mem` the contents of the byte area, `len` the final value of the C variable `mem`;
* `hi` one past the highest offset of the byte area that was written. -/
structure uvc_descriptors where
  n_desc : Nat
  bytes : Nat
  hdr : List (Option Nat)
  mem : Nat → Nat
  len : Nat
  hi : Nat

/-- Function `uvc_copy_descriptors(uvc, speed)`. The file-scope descriptors are passed
as `g`. The argument `heap` is the outcome of `kmalloc`: `none` for NULL, `some m` for a
block whose byte area initially holds `m`. The copy pass is not held back by the size of
the block: `m` also stands for the memory behind it, and `written_end` below tells how far
the writes reach. -/
def uvc_copy_descriptors (uvc : uvc_device) (g : uvc_statics) (speed : usb_device_speed)
    (heap : Option (Nat → Nat)) : Option uvc_descriptors :=
  let uvc_streaming_cls :=
    if speed = USB_SPEED_FULL then uvc.desc.fs_streaming else uvc.desc.hs_streaming
  let uvc_streaming_std :=
    if speed = USB_SPEED_FULL then uvc_fs_streaming g else uvc_hs_streaming g
  -- Count descriptors and compute their size.
  let bytes0 := bLength (uvc_iad g) + bLength (uvc_control_intf g)
    + bLength (uvc_control_ep g) + bLength uvc_control_cs_ep
    + bLength (uvc_streaming_intf_alt0 g)
  let c1 := uvc.desc.control.foldl count_cls { size := 0, bytes := u32 bytes0, n_desc := 5 }
  let control_size := c1.size
  let c2 := uvc_streaming_cls.foldl count_cls { c1 with size := 0 }
  let streaming_size := c2.size
  let c3 := uvc_streaming_std.foldl count_std c2
  match heap with
  | none => none
  | some m =>
    -- Copy the descriptors.
    let s0 : copy_state := { mem := m, cur := 0, dst := [], hi := 0 }
    let s1 := UVC_COPY_DESCRIPTOR s0 (uvc_iad g)
    let s2 := UVC_COPY_DESCRIPTOR s1 (uvc_control_intf g)
    let uvc_control_header := s2.cur
    let s3 := UVC_COPY_DESCRIPTORS s2 uvc.desc.control
    let s4 := patch_control_header s3 uvc_control_header control_size uvc.streaming_intf
    let s5 := UVC_COPY_DESCRIPTOR s4 (uvc_control_ep g)
    let s6 := UVC_COPY_DESCRIPTOR s5 uvc_control_cs_ep
    let s7 := UVC_COPY_DESCRIPTOR s6 (uvc_streaming_intf_alt0 g)
    let uvc_streaming_header := s7.cur
    let s8 := UVC_COPY_DESCRIPTORS s7 uvc_streaming_cls
    let s9 := patch_streaming_header s8 uvc_streaming_header streaming_size
      g.streaming_ep_bEndpointAddress
    let s10 := UVC_COPY_DESCRIPTORS s9 uvc_streaming_std
    some { n_desc := c3.n_desc
           bytes := c3.bytes
           hdr := s10.dst ++ [none]
           mem := s10.mem
           len := s10.cur
           hi := s10.hi }

/-- The composed blob: the bytes between the start of the byte area and the final value
of the C variable `mem`. -/
def blob (r : uvc_descriptors) : List Nat := (List.range r.len).map r.mem

/-! ## Reference quantities -/

/-- Sum of `bLength` over a chain. -/
def chain_size (c : List Descriptor) : Nat := (c.map bLength).sum

/-- The bytes of a chain copied back to back. -/
def chain_bytes (c : List Descriptor) : List Nat := (c.map copy_bytes).flatten

/-- The offsets at which the records of a chain start when the first starts at `o`. -/
def chain_offsets : Nat → List Descriptor → List Nat
  | _, [] => []
  | o, d :: t => o :: chain_offsets (o + bLength d) t

/-- The bytes of the byte area below the cursor. -/
def copy_state.view (s : copy_state) : List Nat := (List.range s.cur).map s.mem

/-- The class-specific streaming chain selected by `speed`. -/
def streaming_cls (uvc : uvc_device) (speed : usb_device_speed) : List Descriptor :=
  if speed = USB_SPEED_FULL then uvc.desc.fs_streaming else uvc.desc.hs_streaming

/-- The standard streaming descriptors selected by `speed`. -/
def streaming_std (g : uvc_statics) (speed : usb_device_speed) : List Descriptor :=
  if speed = USB_SPEED_FULL then uvc_fs_streaming g else uvc_hs_streaming g

/-- The records of a descriptor set in the order of the layout comment. -/
def layout (uvc : uvc_device) (g : uvc_statics) (speed : usb_device_speed) :
    List Descriptor :=
  [uvc_iad g, uvc_control_intf g] ++ uvc.desc.control
    ++ [uvc_control_ep g, uvc_control_cs_ep, uvc_streaming_intf_alt0 g]
    ++ streaming_cls uvc speed ++ [uvc_streaming_intf_alt1 g, uvc_streaming_ep g]

/-- A little-endian 16-bit store into a list of bytes. -/
def set_le16 (l : List Nat) (a v : Nat) : List Nat :=
  (l.set a (v % 65536 % 256)).set (a + 1) (v % 65536 / 256)

/-- The stores through `uvc_control_header` on a list of bytes. -/
def patched_control (l : List Nat) (h size intf : Nat) : List Nat :=
  ((set_le16 l (h + VC_HEADER_wTotalLength) size).set (h + VC_HEADER_bInCollection) 1).set
    (h + VC_HEADER_baInterfaceNr) (intf % 256)

/-- The stores through `uvc_streaming_header` on a list of bytes. -/
def patched_streaming (l : List Nat) (h size addr : Nat) : List Nat :=
  (set_le16 l (h + VS_INPUT_HEADER_wTotalLength) size).set
    (h + VS_INPUT_HEADER_bEndpointAddress) addr

/-- The contents of the composed blob in closed form. -/
def blob_spec (uvc : uvc_device) (g : uvc_statics) (speed : usb_device_speed) : List Nat :=
  patched_streaming
    (patched_control
        (chain_bytes [uvc_iad g, uvc_control_intf g] ++ chain_bytes uvc.desc.control)
        17 (u32 (chain_size uvc.desc.control)) uvc.streaming_intf
      ++ chain_bytes [uvc_control_ep g, uvc_control_cs_ep, uvc_streaming_intf_alt0 g]
      ++ chain_bytes (streaming_cls uvc speed))
    (38 + chain_size uvc.desc.control) (u32 (chain_size (streaming_cls uvc speed)))
    g.streaming_ep_bEndpointAddress
  ++ chain_bytes (streaming_std g speed)

/-- Reading a little-endian 16-bit field at offset `a` of a list of bytes. -/
def read_le16 (l : List Nat) (a : Nat) : Option Nat :=
  match l[a]?, l[a + 1]? with
  | some lo, some hi => some (lo + 256 * hi)
  | _, _ => none

/-- The value of `bLength` of the first record of a chain, 0 for an empty chain. -/
abbrev first_bLength (c : List Descriptor) : Nat := bLength (c.headD [])

/-- The index that `uvc_copy_descriptors` writes, in closed form. -/
def hdr_spec (uvc : uvc_device) (g : uvc_statics) (speed : usb_device_speed) :
    List (Option Nat) :=
  (chain_offsets 0 (layout uvc g speed)).map some ++ [none]

/-- The offsets of the bytes that the stores through `uvc_control_header` (at offset 17)
and `uvc_streaming_header` (at offset `38 + |control chain bytes|`) address. -/
def patched_offsets (uvc : uvc_device) : List Nat :=
  [17 + VC_HEADER_wTotalLength, 17 + VC_HEADER_wTotalLength + 1,
   17 + VC_HEADER_bInCollection, 17 + VC_HEADER_baInterfaceNr,
   38 + chain_size uvc.desc.control + VS_INPUT_HEADER_wTotalLength,
   38 + chain_size uvc.desc.control + VS_INPUT_HEADER_wTotalLength + 1,
   38 + chain_size uvc.desc.control + VS_INPUT_HEADER_bEndpointAddress]

/-- A 255 byte record (`bLength = 255`). -/
def wide_record : Descriptor := 255 :: List.replicate 254 0

/-- Modelled from the spec: the event types `UVC_EVENT_CONNECT`, `UVC_EVENT_DISCONNECT`,
`UVC_EVENT_STREAMON`, `UVC_EVENT_STREAMOFF`, `UVC_EVENT_SETUP` and `UVC_EVENT_DATA` are
declared in `uvc.h`, which is not among the sources; these are the six event variants
that section 6 of the specification lists. -/
inductive uvc_event_type where
  | UVC_EVENT_CONNECT
  | UVC_EVENT_DISCONNECT
  | UVC_EVENT_STREAMON
  | UVC_EVENT_STREAMOFF
  | UVC_EVENT_SETUP
  | UVC_EVENT_DATA
  deriving DecidableEq, Repr

open uvc_event_type

/-- The numeric value of an `enum usb_device_speed` constant. -/
def usb_device_speed.val : usb_device_speed → Nat
  | USB_SPEED_UNKNOWN => 0
  | USB_SPEED_LOW => 1
  | USB_SPEED_FULL => 2
  | USB_SPEED_HIGH => 3
  | USB_SPEED_WIRELESS => 4
  | USB_SPEED_SUPER => 5

/-- A `struct v4l2_event` as the callbacks fill it: the field `type`, the 64 bytes of
the union member `u.data`, which `struct uvc_event` overlays, and in `overrun` the bytes
that a store through `uvc_event` puts behind the end of the union. Where `overrun` is
empty every other field is left at the zero that `memset` wrote. -/
structure v4l2_event where
  type : uvc_event_type
  data : List Nat
  overrun : List Nat := []
  deriving DecidableEq, Repr

/-- The four bytes of a 32-bit value in the byte order of the little-endian CPU. -/
def le32 (v : Nat) : List Nat :=
  [v % 256, v / 256 % 256, v / 65536 % 256, v / 16777216 % 256]

/-- An event after `memset(&v4l2_event, 0, sizeof(v4l2_event))` and the assignment of
`v4l2_event.type`. -/
def zero_event (t : uvc_event_type) : v4l2_event :=
  { type := t, data := List.replicate 64 0 }

/-- The event built for `UVC_EVENT_CONNECT`: `uvc_event->speed = speed` stores the enum
in the first four bytes of the union. -/
def connect_event (speed : usb_device_speed) : v4l2_event :=
  { type := UVC_EVENT_CONNECT, data := le32 speed.val ++ List.replicate 60 0 }

/-- Member `speed` of the `struct uvc_event` inside an event. -/
def uvc_event_speed (e : v4l2_event) : Nat :=
  e.data.getD 0 0 + 256 * e.data.getD 1 0 + 65536 * e.data.getD 2 0
    + 16777216 * e.data.getD 3 0

/-- A call made on an endpoint: `usb_ep_enable(ep, desc)` with the contents of the
descriptor that `desc` points to, or `usb_ep_disable(ep)`. -/
inductive usb_ep_op where
  | enable (ep : Nat) (desc : Descriptor)
  | disable (ep : Nat)
  deriving DecidableEq, Repr

/-- What the callbacks read and change outside `struct uvc_device`:
* `statics` the file-scope descriptors;
* `speed` the value of `f->config->cdev->gadget->speed`;
* `events` the events handed to `v4l2_event_queue(uvc->vdev, ...)`, oldest first;
* `ep_ops` the calls of `usb_ep_enable` and `usb_ep_disable`, oldest first. -/
structure uvc_world where
  statics : uvc_statics
  speed : usb_device_speed
  events : List v4l2_event
  ep_ops : List usb_ep_op
  deriving DecidableEq, Repr

/-- The outcome of a callback: its return value and the state it leaves. -/
structure call_result where
  ret : Int
  uvc : uvc_device
  world : uvc_world
  deriving DecidableEq, Repr

/-- Function `v4l2_event_queue(uvc->vdev, &v4l2_event)`. -/
def v4l2_event_queue (w : uvc_world) (e : v4l2_event) : uvc_world :=
  { w with events := w.events ++ [e] }

/-- The statement `if (ep) usb_ep_enable(ep, &uvc_streaming_ep);` (the return value of
`usb_ep_enable` is not used). -/
def usb_ep_enable_if (w : uvc_world) (ep : Option Nat) : uvc_world :=
  match ep with
  | some e => { w with ep_ops := w.ep_ops ++ [usb_ep_op.enable e (uvc_streaming_ep w.statics)] }
  | none => w

/-- The statement `if (ep) usb_ep_disable(ep);`. -/
def usb_ep_disable_if (w : uvc_world) (ep : Option Nat) : uvc_world :=
  match ep with
  | some e => { w with ep_ops := w.ep_ops ++ [usb_ep_op.disable e] }
  | none => w

/-- Function `uvc_function_get_alt(f, interface)`. -/
def uvc_function_get_alt (uvc : uvc_device) (w : uvc_world) (interface : Nat) :
    call_result :=
  if interface = uvc.control_intf then
    { ret := 0, uvc := uvc, world := w }
  else if interface ≠ uvc.streaming_intf then
    { ret := -EINVAL, uvc := uvc, world := w }
  else
    { ret := if uvc.state = UVC_STATE_STREAMING then 1 else 0, uvc := uvc, world := w }

/-- Function `uvc_function_set_alt(f, interface, alt)`. -/
def uvc_function_set_alt (uvc : uvc_device) (w : uvc_world) (interface alt : Nat) :
    call_result :=
  if interface = uvc.control_intf then
    if alt ≠ 0 then
      { ret := -EINVAL, uvc := uvc, world := w }
    else if uvc.state = UVC_STATE_DISCONNECTED then
      { ret := 0
        uvc := { uvc with state := UVC_STATE_CONNECTED }
        world := v4l2_event_queue w (connect_event w.speed) }
    else
      { ret := 0, uvc := uvc, world := w }
  else if interface ≠ uvc.streaming_intf then
    { ret := -EINVAL, uvc := uvc, world := w }
  else
    match alt with
    | 0 =>
      if uvc.state ≠ UVC_STATE_STREAMING then
        { ret := 0, uvc := uvc, world := w }
      else
        { ret := 0
          uvc := { uvc with state := UVC_STATE_CONNECTED }
          world := v4l2_event_queue (usb_ep_disable_if w uvc.video.ep)
            (zero_event UVC_EVENT_STREAMOFF) }
    | 1 =>
      if uvc.state ≠ UVC_STATE_CONNECTED then
        { ret := 0, uvc := uvc, world := w }
      else
        { ret := 0
          uvc := { uvc with state := UVC_STATE_STREAMING }
          world := v4l2_event_queue (usb_ep_enable_if w uvc.video.ep)
            (zero_event UVC_EVENT_STREAMON) }
    | _ => { ret := -EINVAL, uvc := uvc, world := w }

/-! ## Sample inputs -/

/-- The control header `uvc_control_header` of the source file (13 bytes). -/
def sample_control_header : Descriptor :=
  [13, 0x24, 0x01, 0x00, 0x01, 0, 0, 0x00, 0x6c, 0xdc, 0x02, 0, 0]

/-- The output terminal `uvc_output_terminal` of the source file (9 bytes). -/
def sample_output_terminal : Descriptor := [9, 0x24, 0x03, 3, 0x01, 0x01, 0, 2, 0]

/-- The input header `uvc_input_header` of the source file (15 bytes). -/
def sample_input_header : Descriptor :=
  [15, 0x24, 0x01, 2, 0, 0, 0, 0, 3, 0, 0, 0, 1, 0, 4]

/-- The colour matching descriptor `uvc_color_matching` of the source file (6 bytes). -/
def sample_color_matching : Descriptor := [6, 0x24, 0x0d, 1, 1, 4]

/-- A bound function instance with a two-record control chain and two-record streaming
chains, control interface 0, streaming interface 1 and streaming endpoint 1. -/
def sample_uvc : uvc_device :=
  { state := UVC_STATE_DISCONNECTED
    control_intf := 0
    streaming_intf := 1
    video := { ep := some 1 }
    event_setup_out := 0
    desc := { control := [sample_control_header, sample_output_terminal]
              fs_streaming := [sample_input_header, sample_color_matching]
              hs_streaming := [sample_input_header, sample_color_matching] } }

/-- The sample device in state Connected. -/
def sample_connected : uvc_device := { sample_uvc with state := UVC_STATE_CONNECTED }

/-- The sample device in state Streaming. -/
def sample_streaming : uvc_device := { sample_uvc with state := UVC_STATE_STREAMING }

/-- The file-scope descriptors after a bind that assigned interfaces 0 and 1 and the
endpoint addresses `0x81` and `0x82`. -/
def sample_statics : uvc_statics :=
  { uvc_statics_init with
    control_ep_bEndpointAddress := 0x81
    streaming_ep_bEndpointAddress := 0x82 }

/-- A high-speed gadget with no event queued and no endpoint call made. -/
def sample_world : uvc_world :=
  { statics := sample_statics, speed := USB_SPEED_HIGH, events := [], ep_ops := [] }

/-! ## Reading a blob back -/

/-- Walking a list of bytes by length prefix, the way a host parses a descriptor set: at
offset `off` the first byte is the length of the record that starts there; the record
is split off and the walk goes on behind it. The walk fails (`none`) on a record of
length 0 and on a record that runs past the end, and it succeeds exactly when it ends
at the end of the bytes. The result lists each record with the offset it starts at.
`fuel` bounds the number of records. -/
def walk_records : Nat → Nat → List Nat → Option (List (Nat × List Nat))
  | _, _, [] => some []
  | 0, _, _ :: _ => none
  | fuel + 1, off, b :: rest =>
    if b = 0 ∨ rest.length + 1 < b then none
    else
      match walk_records fuel (off + b) ((b :: rest).drop b) with
      | some rs => some ((off, (b :: rest).take b) :: rs)
      | none => none

/-- Walking a whole blob from offset 0 (a blob of `n` bytes holds at most `n` records). -/
def parse_blob (l : List Nat) : Option (List (Nat × List Nat)) :=
  walk_records l.length 0 l

/-- Applying `f` to the first element of a list. -/
def map_head (f : List Nat → List Nat) : List (List Nat) → List (List Nat)
  | [] => []
  | h :: t => f h :: t

/-- The records a walk of the composed blob is expected to yield: the bytes of every
source record in layout order, where the first record of the control chain has its
fields `wTotalLength`, `bInCollection` and `baInterfaceNr[0]` set and the first record
of the streaming chain has its fields `wTotalLength` and `bEndpointAddress` set. -/
def expected_records (uvc : uvc_device) (g : uvc_statics) (speed : usb_device_speed) :
    List (List Nat) :=
  [copy_bytes (uvc_iad g), copy_bytes (uvc_control_intf g)]
    ++ map_head
        (fun b => patched_control b 0 (u32 (chain_size uvc.desc.control)) uvc.streaming_intf)
        (uvc.desc.control.map copy_bytes)
    ++ [copy_bytes (uvc_control_ep g), copy_bytes uvc_control_cs_ep,
        copy_bytes (uvc_streaming_intf_alt0 g)]
    ++ map_head
        (fun b => patched_streaming b 0 (u32 (chain_size (streaming_cls uvc speed)))
          g.streaming_ep_bEndpointAddress)
        ((streaming_cls uvc speed).map copy_bytes)
    ++ [copy_bytes (uvc_streaming_intf_alt1 g), copy_bytes (uvc_streaming_ep g)]

/-- Pairing each record of a list with the offset it starts at, the first at `o`. -/
def with_offsets : Nat → List (List Nat) → List (Nat × List Nat)
  | _, [] => []
  | o, r :: t => (o, r) :: with_offsets (o + r.length) t

/-! ## Control requests and disconnection: `uvc_function_setup`,
`uvc_function_ep0_complete` and `uvc_function_disable` -/

/-- Mask `USB_TYPE_MASK` of `linux/usb/ch9.h` (`0x03 << 5`). -/
def USB_TYPE_MASK : Nat := 0x60

/-- Request type `USB_TYPE_CLASS` of `linux/usb/ch9.h` (`0x01 << 5`). -/
def USB_TYPE_CLASS : Nat := 0x20

/-- A `struct usb_ctrlrequest` (`linux/usb/ch9.h`): the setup packet. Each member holds
the value of the field; the three `__le16` members hold the 16-bit value that
`le16_to_cpu` yields. -/
structure usb_ctrlrequest where
  bRequestType : Nat
  bRequest : Nat
  wValue : Nat
  wIndex : Nat
  wLength : Nat
  deriving DecidableEq, Repr

/-- The 8 bytes of a setup packet as they lie in memory (the structure is packed and its
16-bit members are little-endian). -/
def usb_ctrlrequest.bytes (c : usb_ctrlrequest) : List Nat :=
  [c.bRequestType, c.bRequest, c.wValue % 256, c.wValue / 256 % 256,
   c.wIndex % 256, c.wIndex / 256 % 256, c.wLength % 256, c.wLength / 256 % 256]

/-- The event built for `UVC_EVENT_SETUP`:
`memcpy(&uvc_event->req, ctrl, sizeof(uvc_event->req))` stores the 8 bytes of the setup
packet at the start of the union. -/
def setup_event (ctrl : usb_ctrlrequest) : v4l2_event :=
  { type := UVC_EVENT_SETUP, data := ctrl.bytes ++ List.replicate 56 0 }

/-- Function `uvc_function_setup(f, ctrl)`. The constant `UVC_MAX_REQUEST_SIZE` is
declared in `uvc.h`, which is not among the sources, and is passed as an argument. -/
def uvc_function_setup (UVC_MAX_REQUEST_SIZE : Nat) (uvc : uvc_device) (w : uvc_world)
    (ctrl : usb_ctrlrequest) : call_result :=
  if ctrl.bRequestType &&& USB_TYPE_MASK ≠ USB_TYPE_CLASS then
    { ret := -EINVAL, uvc := uvc, world := w }
  -- Stall too big requests.
  else if ctrl.wLength > UVC_MAX_REQUEST_SIZE then
    { ret := -EINVAL, uvc := uvc, world := w }
  else
    { ret := 0, uvc := uvc, world := v4l2_event_queue w (setup_event ctrl) }

/-- The members of a `struct usb_request` that `uvc_function_ep0_complete` reads: the
contents of the buffer `buf` and the number `actual` of bytes transferred. -/
structure usb_request where
  buf : List Nat
  actual : Nat
  deriving DecidableEq, Repr

/-- The number of bytes of the union `u` of `struct v4l2_event` behind the member
`data.length` of `struct uvc_event`: the union is 64 bytes long and `length` takes the
first four. -/
def UVC_EVENT_DATA_ROOM : Nat := 60

/-- Modelled from the spec: `struct uvc_request_data`, the member `data` of
`struct uvc_event`, is declared in `uvc.h`, which is not among the sources. The event
carries the actual length and the payload (section 4.3 of the specification); the member
`length` is taken as a 32-bit integer at the start of the union and the member `data` as
the bytes behind it. The event built for `UVC_EVENT_DATA`:
`uvc_event->data.length = req->actual` and
`memcpy(&uvc_event->data.data, req->buf, req->actual)`. The `memcpy` starts at offset 4
of the union and has no bound but `req->actual`: the first `UVC_EVENT_DATA_ROOM` bytes it
stores lie in the union, the bytes after these are stored behind the end of the union
(`overrun`). The bytes of the union that the `memcpy` leaves untouched keep the zero of
`memset`. -/
def data_event (req : usb_request) : v4l2_event :=
  { type := UVC_EVENT_DATA
    data := le32 req.actual ++ (memcpy_src req.buf req.actual).take UVC_EVENT_DATA_ROOM
      ++ List.replicate (UVC_EVENT_DATA_ROOM - req.actual) 0
    overrun := (memcpy_src req.buf req.actual).drop UVC_EVENT_DATA_ROOM }

/-- Member `data.length` of the `struct uvc_event` inside an event. -/
def uvc_event_data_length (e : v4l2_event) : Nat :=
  e.data.getD 0 0 + 256 * e.data.getD 1 0 + 65536 * e.data.getD 2 0
    + 16777216 * e.data.getD 3 0

/-- The first `n` bytes of member `data.data` of the `struct uvc_event` inside an
event. -/
def uvc_event_data_payload (e : v4l2_event) (n : Nat) : List Nat :=
  (e.data.drop 4).take n

/-- The 8 bytes of member `req` of the `struct uvc_event` inside an event. -/
def uvc_event_req (e : v4l2_event) : List Nat := e.data.take 8

/-- Function `uvc_function_ep0_complete(ep, req)`, with `uvc = req->context`. The
function returns no value. -/
def uvc_function_ep0_complete (uvc : uvc_device) (w : uvc_world) (req : usb_request) :
    uvc_device × uvc_world :=
  if uvc.event_setup_out ≠ 0 then
    ({ uvc with event_setup_out := 0 }, v4l2_event_queue w (data_event req))
  else
    (uvc, w)

/-- Function `uvc_function_disable(f)`. The function returns no value. -/
def uvc_function_disable (uvc : uvc_device) (w : uvc_world) : uvc_device × uvc_world :=
  ({ uvc with state := UVC_STATE_DISCONNECTED },
   v4l2_event_queue w (zero_event UVC_EVENT_DISCONNECT))

/-! ## Sequences of calls -/

/-- A call of one of the callbacks of the function, with its arguments. -/
inductive uvc_call where
  | set_alt (interface alt : Nat)
  | get_alt (interface : Nat)
  | setup (ctrl : usb_ctrlrequest)
  | ep0_complete (req : usb_request)
  | disable
  deriving DecidableEq, Repr

/-- The state one call leaves, the return value dropped. -/
def uvc_step (UVC_MAX_REQUEST_SIZE : Nat) (s : uvc_device × uvc_world) :
    uvc_call → uvc_device × uvc_world
  | uvc_call.set_alt interface alt =>
    ((uvc_function_set_alt s.1 s.2 interface alt).uvc,
     (uvc_function_set_alt s.1 s.2 interface alt).world)
  | uvc_call.get_alt interface =>
    ((uvc_function_get_alt s.1 s.2 interface).uvc,
     (uvc_function_get_alt s.1 s.2 interface).world)
  | uvc_call.setup ctrl =>
    ((uvc_function_setup UVC_MAX_REQUEST_SIZE s.1 s.2 ctrl).uvc,
     (uvc_function_setup UVC_MAX_REQUEST_SIZE s.1 s.2 ctrl).world)
  | uvc_call.ep0_complete req => uvc_function_ep0_complete s.1 s.2 req
  | uvc_call.disable => uvc_function_disable s.1 s.2

/-- The state a sequence of calls leaves, made one after the other. -/
def uvc_run (UVC_MAX_REQUEST_SIZE : Nat) (s : uvc_device × uvc_world)
    (calls : List uvc_call) : uvc_device × uvc_world :=
  calls.foldl (uvc_step UVC_MAX_REQUEST_SIZE) s

/-- Whether endpoint `ep` is enabled after the calls `ops` made on endpoints that were
all disabled before, every `usb_ep_enable` succeeding: the last call made on `ep` is a
`usb_ep_enable`. -/
def ep_enabled (ops : List usb_ep_op) (ep : Nat) : Bool :=
  ops.foldl
    (fun enabled op =>
      match op with
      | usb_ep_op.enable e _ => if e = ep then true else enabled
      | usb_ep_op.disable e => if e = ep then false else enabled)
    false

/-- A class request (`USB_TYPE_CLASS | USB_RECIP_INTERFACE`, host to device, request
`SET_CUR`) with a data stage of 26 bytes. -/
def sample_ctrl : usb_ctrlrequest :=
  { bRequestType := 0x21, bRequest := 0x01, wValue := 0x0100, wIndex := 0x0001, wLength := 26 }

/-- A completed request that transferred 4 bytes. -/
def sample_req : usb_request := { buf := [1, 2, 3, 4, 0, 0, 0, 0], actual := 4 }

/-- A completed request of 64 bytes, the bytes 1 to 64: the data stage of a class request
with `wLength = 64`. -/
def long_req : usb_request := { buf := List.range' 1 64, actual := 64 }

/-- The sample device in state Connected with the flag `event_setup_out` set: the data
stage of a host-to-device request is awaited. -/
def sample_setup_out : uvc_device := { sample_connected with event_setup_out := 1 }

/-! ## Registration: `uvc_bind_config` -/

/-- Value of `ENOMEM` in `linux/errno.h`. -/
def ENOMEM : Int := 12

/-- Subtype `UVC_VC_HEADER` of `linux/usb/video.h`. -/
def UVC_VC_HEADER : Nat := 0x01

/-- Subtype `UVC_VS_INPUT_HEADER` of `linux/usb/video.h`. -/
def UVC_VS_INPUT_HEADER : Nat := 0x01

/-- Field `bDescriptorSubType` of a `struct uvc_descriptor_header`: the third byte. -/
def bDescriptorSubType (d : Descriptor) : Nat := d.getD 2 0

/-- The members `id` of the three entries of `uvc_en_us_strings`. -/
structure uvc_string_ids where
  association : Nat
  control : Nat
  streaming : Nat
  deriving DecidableEq, Repr

/-- The test `chain == NULL || chain[0] == NULL ||
chain[0]->bDescriptorSubType != subtype` of the descriptor validation; `none` is the NULL
pointer and `some []` an array whose first entry is NULL. -/
def chain_rejected (chain : Option (List Descriptor)) (subtype : Nat) : Bool :=
  match chain with
  | none => true
  | some [] => true
  | some (d :: _) => bDescriptorSubType d != subtype

/-- The block `kzalloc` returns for a `struct uvc_device`: every member zero or NULL
(`UVC_STATE_DISCONNECTED` is assigned right after). -/
def uvc_device_zero : uvc_device :=
  { state := UVC_STATE_DISCONNECTED
    control_intf := 0
    streaming_intf := 0
    video := { ep := none }
    event_setup_out := 0
    desc := { control := [], fs_streaming := [], hs_streaming := [] } }

/-- What `uvc_bind_config` leaves behind:
* `ret` its return value;
* `statics`, `strings` the file-scope descriptors and string table;
* `func` the function instance handed to `usb_add_function`, `none` when that call was
  not reached;
* `add_ret` the value `usb_add_function` returned, when it was called;
* `freed` whether `kfree(uvc)` was executed. -/
structure bind_config_result where
  ret : Int
  statics : uvc_statics
  strings : uvc_string_ids
  func : Option uvc_device
  add_ret : Option Int
  freed : Bool
  deriving DecidableEq, Repr

/-- Function `uvc_bind_config(c, control, fs_streaming, hs_streaming)`. The outcomes of
the calls it makes are arguments: `dualspeed` for `gadget_is_dualspeed`, `kzalloc_ok` for
`kzalloc` returning a block, `id1`, `id2`, `id3` for the three calls of `usb_string_id`
and `add` for `usb_add_function`. A chain argument is `none` for a NULL pointer. -/
def uvc_bind_config (dualspeed kzalloc_ok : Bool)
    (control fs_streaming hs_streaming : Option (List Descriptor))
    (id1 id2 id3 add : Int) (g : uvc_statics) (t : uvc_string_ids) : bind_config_result :=
  let ret : Int := 0
  if !dualspeed then
    { ret := -EINVAL, statics := g, strings := t, func := none, add_ret := none,
      freed := false }
  else if !kzalloc_ok then
    { ret := -ENOMEM, statics := g, strings := t, func := none, add_ret := none,
      freed := false }
  -- Validate the descriptors.
  else if chain_rejected control UVC_VC_HEADER then
    { ret := ret, statics := g, strings := t, func := none, add_ret := none, freed := true }
  else if chain_rejected fs_streaming UVC_VS_INPUT_HEADER then
    { ret := ret, statics := g, strings := t, func := none, add_ret := none, freed := true }
  else if chain_rejected hs_streaming UVC_VS_INPUT_HEADER then
    { ret := ret, statics := g, strings := t, func := none, add_ret := none, freed := true }
  else
    let uvc : uvc_device :=
      { uvc_device_zero with
        desc := { control := control.getD []
                  fs_streaming := fs_streaming.getD []
                  hs_streaming := hs_streaming.getD [] } }
    -- Allocate string descriptor numbers.
    let ret := id1
    if ret < 0 then
      { ret := ret, statics := g, strings := t, func := none, add_ret := none, freed := true }
    else
      let t := { t with association := ret.toNat % 256 }
      let g := { g with iad_iFunction := ret.toNat % 256 }
      let ret := id2
      if ret < 0 then
        { ret := ret, statics := g, strings := t, func := none, add_ret := none,
          freed := true }
      else
        let t := { t with control := ret.toNat % 256 }
        let g := { g with control_intf_iInterface := ret.toNat % 256 }
        let ret := id3
        if ret < 0 then
          { ret := ret, statics := g, strings := t, func := none, add_ret := none,
            freed := true }
        else
          let t := { t with streaming := ret.toNat % 256 }
          let g := { g with
                     streaming_intf_alt0_iInterface := ret.toNat % 256
                     streaming_intf_alt1_iInterface := ret.toNat % 256 }
          -- Register the function.
          let ret := add
          { ret := 0, statics := g, strings := t, func := some uvc, add_ret := some ret,
            freed := decide (ret ≠ 0) }

/-- The string table before any identifier is assigned. -/
def uvc_string_ids_init : uvc_string_ids := { association := 0, control := 0, streaming := 0 }

/-! ## Binding: `uvc_register_video`, `uvc_function_unbind` and `uvc_function_bind` -/

/-- The outcomes of the calls that `uvc_function_bind` and `uvc_register_video` make
outside this file, each consulted only when the call is reached:
* `control_ep`, `streaming_ep` for the two calls of `usb_ep_autoconfig`: `none` for NULL,
  `some (e, a)` for the endpoint with handle `e`, the call having stored the address `a`
  in the field `bEndpointAddress` of the descriptor it was given;
* `control_id`, `streaming_id` for the two calls of `usb_interface_id`;
* `fs_heap`, `hs_heap` for the `kmalloc` inside the two calls of `uvc_copy_descriptors`;
* `control_req` for `usb_ep_alloc_request` and `control_buf` for
  `kmalloc(UVC_MAX_REQUEST_SIZE, GFP_KERNEL)`, `none` for NULL;
* `deactivate` for `usb_function_deactivate` and `video_init` for `uvc_video_init`;
* `video` for `video_device_alloc`, `none` for NULL;
* `video_register` for `video_register_device` and `video_minor` for the minor number it
  assigns when it succeeds. -/
structure bind_calls where
  control_ep : Option (Nat × Nat)
  streaming_ep : Option (Nat × Nat)
  control_id : Int
  streaming_id : Int
  fs_heap : Option (Nat → Nat)
  hs_heap : Option (Nat → Nat)
  control_req : Option Nat
  control_buf : Option Nat
  deactivate : Int
  video_init : Int
  video : Option Nat
  video_register : Int
  video_minor : Int

/-- Something `uvc_function_unbind` releases. -/
inductive uvc_resource where
  | video_released
  | video_unregistered
  | control_req
  | control_buf
  | descriptors
  | hs_descriptors
  | uvc
  deriving DecidableEq, Repr

/-- The function instance as `uvc_function_bind` and `uvc_function_unbind` see it: the
device, the file-scope descriptors, the members `control_ep`, `control_req`,
`control_buf` and `vdev` (with the minor number of the video device) of
`struct uvc_device`, the members `descriptors` and `hs_descriptors` of
`struct usb_function`, and the list of what has been released. -/
structure uvc_function where
  uvc : uvc_device
  statics : uvc_statics
  control_ep : Option Nat
  control_req : Option Nat
  control_buf : Option Nat
  vdev : Option (Nat × Int)
  descriptors : Option uvc_descriptors
  hs_descriptors : Option uvc_descriptors
  released : List uvc_resource

/-- A function instance as `uvc_bind_config` hands it to `usb_add_function`. -/
def uvc_function_init (uvc : uvc_device) (g : uvc_statics) : uvc_function :=
  { uvc := uvc, statics := g, control_ep := none, control_req := none, control_buf := none,
    vdev := none, descriptors := none, hs_descriptors := none, released := [] }

/-- Function `uvc_register_video(uvc)`: the return value and the function instance. -/
def uvc_register_video (f : uvc_function) (o : bind_calls) : Int × uvc_function :=
  match o.video with
  | none => (-ENOMEM, f)
  | some v =>
    (o.video_register,
     { f with vdev := some (v, if o.video_register = 0 then o.video_minor else -1) })

/-- Function `uvc_function_unbind(c, f)`. The pointers `f->descriptors` and
`f->hs_descriptors` are not reset; what they point to is released together with the
instance. The stores into `driver_data` of the endpoints are left out. -/
def uvc_function_unbind (f : uvc_function) : uvc_function :=
  let r1 :=
    match f.vdev with
    | some (_, minor) =>
      if minor = -1 then [uvc_resource.video_released] else [uvc_resource.video_unregistered]
    | none => []
  let r2 :=
    match f.control_req with
    | some _ => [uvc_resource.control_req, uvc_resource.control_buf]
    | none => []
  { f with
    vdev := none
    released := f.released ++ r1 ++ r2
      ++ [uvc_resource.descriptors, uvc_resource.hs_descriptors, uvc_resource.uvc] }

/-- Function `uvc_function_bind(c, f)`: the return value and the function instance. The
stores into `driver_data` of the endpoints and into the members of `control_req` are
left out. -/
def uvc_function_bind (f : uvc_function) (o : bind_calls) : Int × uvc_function :=
  let ret : Int := -EINVAL
  -- Allocate endpoints.
  match o.control_ep with
  | none => (ret, uvc_function_unbind f)
  | some (cep, caddr) =>
    let f := { f with
               control_ep := some cep
               statics := { f.statics with control_ep_bEndpointAddress := caddr } }
    match o.streaming_ep with
    | none => (ret, uvc_function_unbind f)
    | some (sep, saddr) =>
      let f := { f with
                 uvc := { f.uvc with video := { ep := some sep } }
                 statics := { f.statics with streaming_ep_bEndpointAddress := saddr } }
      -- Allocate interface IDs.
      let ret := o.control_id
      if ret < 0 then (ret, uvc_function_unbind f)
      else
        let f := { f with
                   uvc := { f.uvc with control_intf := ret.toNat }
                   statics := { f.statics with
                                iad_bFirstInterface := ret.toNat % 256
                                control_intf_bInterfaceNumber := ret.toNat % 256 } }
        let ret := o.streaming_id
        if ret < 0 then (ret, uvc_function_unbind f)
        else
          let f := { f with
                     uvc := { f.uvc with streaming_intf := ret.toNat }
                     statics := { f.statics with
                                  streaming_intf_alt0_bInterfaceNumber := ret.toNat % 256
                                  streaming_intf_alt1_bInterfaceNumber := ret.toNat % 256 } }
          -- Copy descriptors.
          let f := { f with
                     descriptors := uvc_copy_descriptors f.uvc f.statics USB_SPEED_FULL o.fs_heap }
          let f := { f with
                     hs_descriptors :=
                       uvc_copy_descriptors f.uvc f.statics USB_SPEED_HIGH o.hs_heap }
          -- Preallocate control endpoint request.
          let f := { f with control_req := o.control_req, control_buf := o.control_buf }
          if f.control_req.isNone || f.control_buf.isNone then
            (-ENOMEM, uvc_function_unbind f)
          else
            let ret := o.deactivate
            if ret < 0 then (ret, uvc_function_unbind f)
            else
              -- Initialise video.
              let ret := o.video_init
              if ret < 0 then (ret, uvc_function_unbind f)
              else
                -- Register a V4L2 device.
                let (ret, f) := uvc_register_video f o
                if ret < 0 then (ret, uvc_function_unbind f)
                else (0, f)

/-- Outcomes in which every call succeeds: endpoints 1 and 2 with the addresses `0x81`
and `0x82`, interfaces 0 and 1. -/
def sample_bind_calls : bind_calls :=
  { control_ep := some (1, 0x81)
    streaming_ep := some (2, 0x82)
    control_id := 0
    streaming_id := 1
    fs_heap := some (fun _ => 0)
    hs_heap := some (fun _ => 0)
    control_req := some 1
    control_buf := some 1
    deactivate := 0
    video_init := 0
    video := some 1
    video_register := 0
    video_minor := 0 }

/-- The instance `uvc_bind_config` builds from the sample catalog. -/
def sample_function : uvc_function :=
  uvc_function_init { uvc_device_zero with desc := sample_uvc.desc } uvc_statics_init

/-- The sample device with a control chain of the control header followed by 300 records
of 255 bytes: the chain takes `13 + 300 * 255 = 76513` bytes, more than 16 bits hold. -/
def long_uvc : uvc_device :=
  { sample_uvc with
    desc := { sample_uvc.desc with
              control := sample_control_header :: List.replicate 300 wide_record } }

/-! ## A catalog with a short control header -/

/-- A class-specific record of 3 bytes with `bDescriptorSubType = UVC_VC_HEADER`: the
descriptor validation of `uvc_bind_config` reads the subtype only, not `bLength`. -/
def short_header : Descriptor := [3, 0x24, 0x01]

/-- The sample device with `short_header` in front of the output terminal as control
chain. -/
def short_uvc : uvc_device :=
  { sample_uvc with
    desc := { control := [short_header, sample_output_terminal]
              fs_streaming := [sample_input_header, sample_color_matching]
              hs_streaming := [sample_input_header, sample_color_matching] } }

/-! ## Properties -/

theorem length_memcpy_src (src : List Nat) (n : Nat) : (memcpy_src src n).length = n := by
  simp [memcpy_src]

theorem length_copy_bytes (d : Descriptor) : (copy_bytes d).length = bLength d := by
  simp [copy_bytes, length_memcpy_src]

theorem length_chain_bytes (c : List Descriptor) : (chain_bytes c).length = chain_size c := by
  induction c with
  | nil => rfl
  | cons d t ih =>
    simp only [chain_bytes, chain_size, List.map_cons, List.flatten_cons, List.length_append,
      List.sum_cons, length_copy_bytes] at ih ⊢
    rw [ih]

theorem chain_size_cons (d : Descriptor) (t : List Descriptor) :
    chain_size (d :: t) = bLength d + chain_size t := by
  simp [chain_size]

theorem chain_size_append (a b : List Descriptor) :
    chain_size (a ++ b) = chain_size a + chain_size b := by
  simp [chain_size]

theorem chain_bytes_cons (d : Descriptor) (t : List Descriptor) :
    chain_bytes (d :: t) = copy_bytes d ++ chain_bytes t := by
  simp [chain_bytes]

theorem chain_bytes_append (a b : List Descriptor) :
    chain_bytes (a ++ b) = chain_bytes a ++ chain_bytes b := by
  simp [chain_bytes]

theorem chain_offsets_append (o : Nat) (a b : List Descriptor) :
    chain_offsets o (a ++ b) = chain_offsets o a ++ chain_offsets (o + chain_size a) b := by
  induction a generalizing o with
  | nil => simp [chain_offsets, chain_size]
  | cons d t ih => simp [chain_offsets, ih, chain_size_cons, Nat.add_assoc]

theorem length_chain_offsets (o : Nat) (c : List Descriptor) :
    (chain_offsets o c).length = c.length := by
  induction c generalizing o with
  | nil => rfl
  | cons d t ih => simp [chain_offsets, ih]

theorem view_copy_descriptor (s : copy_state) (d : Descriptor) :
    (UVC_COPY_DESCRIPTOR s d).view = s.view ++ copy_bytes d := by
  unfold copy_state.view UVC_COPY_DESCRIPTOR copy_bytes memcpy_src
  simp only
  rw [List.range_add, List.map_append, List.map_map]
  congr 1
  · apply List.map_congr_left
    intro a ha
    have := List.mem_range.1 ha
    simp only [memcpy]
    rw [if_neg (by omega)]
  · apply List.map_congr_left
    intro a ha
    have := List.mem_range.1 ha
    simp only [memcpy, Function.comp]
    rw [if_pos (by omega)]
    congr 1
    omega

theorem copy_descriptors_spec (s : copy_state) (c : List Descriptor) :
    (UVC_COPY_DESCRIPTORS s c).view = s.view ++ chain_bytes c ∧
    (UVC_COPY_DESCRIPTORS s c).cur = s.cur + chain_size c ∧
    (UVC_COPY_DESCRIPTORS s c).dst = s.dst ++ (chain_offsets s.cur c).map some := by
  induction c generalizing s with
  | nil => simp [UVC_COPY_DESCRIPTORS, chain_bytes, chain_size, chain_offsets]
  | cons d t ih =>
    have h := ih (UVC_COPY_DESCRIPTOR s d)
    simp only [UVC_COPY_DESCRIPTORS, List.foldl_cons] at h ⊢
    rw [h.1, h.2.1, h.2.2, view_copy_descriptor]
    simp [UVC_COPY_DESCRIPTOR, chain_bytes_cons, chain_size_cons, chain_offsets, Nat.add_assoc]

theorem map_store8 (m : Nat → Nat) (a v n : Nat) :
    (List.range n).map (store8 m a v) = ((List.range n).map m).set a v := by
  apply List.ext_getElem?
  intro k
  rw [List.getElem?_set, List.getElem?_map, List.getElem?_map]
  by_cases hk : k < n
  · rw [List.getElem?_range hk]
    by_cases hak : a = k
    · subst hak; simp [store8, hk]
    · rw [if_neg hak]; simp [store8]; intro h; exact absurd h.symm hak
  · have : (List.range n)[k]? = none := by simp; omega
    rw [this]
    by_cases hak : a = k
    · subst hak; simp [hk]
    · rw [if_neg hak]; simp

theorem view_patch_control_header (s : copy_state) (h cs i : Nat) :
    (patch_control_header s h cs i).view = patched_control s.view h cs i := by
  simp only [copy_state.view, patch_control_header, patched_control, set_le16, store_le16,
    map_store8]

theorem view_patch_streaming_header (s : copy_state) (h cs i : Nat) :
    (patch_streaming_header s h cs i).view = patched_streaming s.view h cs i := by
  simp only [copy_state.view, patch_streaming_header, patched_streaming, set_le16, store_le16,
    map_store8]

theorem u32_lt (n : Nat) : u32 n < 2 ^ 32 := Nat.mod_lt _ (by norm_num)

theorem u32_of_lt {n : Nat} (h : n < 2 ^ 32) : u32 n = n := Nat.mod_eq_of_lt h

theorem u32_add_u32 (a b : Nat) : u32 (u32 a + b) = u32 (a + b) := by
  simp [u32, Nat.add_mod]

theorem foldl_count_cls (c : List Descriptor) (s b n : Nat) (h1 : s < 2 ^ 32)
    (h2 : b < 2 ^ 32) (h3 : n < 2 ^ 32) :
    c.foldl count_cls { size := s, bytes := b, n_desc := n } =
      { size := u32 (s + chain_size c)
        bytes := u32 (b + chain_size c)
        n_desc := u32 (n + c.length) } := by
  induction c generalizing s b n with
  | nil => simp [chain_size, u32_of_lt h1, u32_of_lt h2, u32_of_lt h3]
  | cons d t ih =>
    rw [List.foldl_cons]
    simp only [count_cls]
    rw [ih _ _ _ (u32_lt _) (u32_lt _) (u32_lt _)]
    simp only [u32_add_u32, chain_size_cons, List.length_cons]
    congr 2 <;> omega

theorem foldl_count_std (c : List Descriptor) (s b n : Nat)
    (h2 : b < 2 ^ 32) (h3 : n < 2 ^ 32) :
    c.foldl count_std { size := s, bytes := b, n_desc := n } =
      { size := s
        bytes := u32 (b + chain_size c)
        n_desc := u32 (n + c.length) } := by
  induction c generalizing s b n with
  | nil => simp [chain_size, u32_of_lt h2, u32_of_lt h3]
  | cons d t ih =>
    rw [List.foldl_cons]
    simp only [count_std]
    rw [ih _ _ _ (u32_lt _) (u32_lt _)]
    simp only [u32_add_u32, chain_size_cons, List.length_cons]
    congr 2 <;> omega

theorem hi_copy_descriptors (s : copy_state) (c : List Descriptor) :
    (UVC_COPY_DESCRIPTORS s c).hi ≤ max s.hi (s.cur + chain_size c) := by
  induction c generalizing s with
  | nil => simp [UVC_COPY_DESCRIPTORS]
  | cons d t ih =>
    have h := ih (UVC_COPY_DESCRIPTOR s d)
    simp only [UVC_COPY_DESCRIPTORS, List.foldl_cons] at h ⊢
    refine le_trans h ?_
    simp only [UVC_COPY_DESCRIPTOR, chain_size_cons]
    split <;> omega

theorem copy_descriptor_as_chain (s : copy_state) (d : Descriptor) :
    UVC_COPY_DESCRIPTOR s d = UVC_COPY_DESCRIPTORS s [d] := rfl

theorem copy_descriptors_append (s : copy_state) (a b : List Descriptor) :
    UVC_COPY_DESCRIPTORS s (a ++ b) = UVC_COPY_DESCRIPTORS (UVC_COPY_DESCRIPTORS s a) b := by
  simp [UVC_COPY_DESCRIPTORS]

theorem streaming_std_eq (g : uvc_statics) (speed : usb_device_speed) :
    streaming_std g speed = [uvc_streaming_intf_alt1 g, uvc_streaming_ep g] := by
  unfold streaming_std uvc_fs_streaming uvc_hs_streaming
  split <;> rfl

theorem chain_size_layout (uvc : uvc_device) (g : uvc_statics) (speed : usb_device_speed) :
    chain_size (layout uvc g speed)
      = 38 + chain_size uvc.desc.control + chain_size (streaming_cls uvc speed) + 16 := by
  simp only [layout, chain_size_append, chain_size_cons]
  simp [chain_size, bLength, uvc_iad, uvc_control_intf, uvc_control_ep, uvc_control_cs_ep,
    uvc_streaming_intf_alt0, uvc_streaming_intf_alt1, uvc_streaming_ep, USB_DT_INTERFACE_SIZE,
    USB_DT_ENDPOINT_SIZE, UVC_DT_CONTROL_ENDPOINT_SIZE]
  omega

theorem sizing_pass (uvc : uvc_device) (g : uvc_statics) (speed : usb_device_speed) :
    (streaming_std g speed).foldl count_std
      ((streaming_cls uvc speed).foldl count_cls
        { uvc.desc.control.foldl count_cls
            { size := 0
              bytes := u32 (bLength (uvc_iad g) + bLength (uvc_control_intf g)
                + bLength (uvc_control_ep g) + bLength uvc_control_cs_ep
                + bLength (uvc_streaming_intf_alt0 g))
              n_desc := 5 } with size := 0 })
      = { size := u32 (chain_size (streaming_cls uvc speed))
          bytes := u32 (chain_size (layout uvc g speed))
          n_desc := u32 (5 + uvc.desc.control.length + (streaming_cls uvc speed).length + 2) } := by
  have hb0 : u32 (bLength (uvc_iad g) + bLength (uvc_control_intf g)
      + bLength (uvc_control_ep g) + bLength uvc_control_cs_ep
      + bLength (uvc_streaming_intf_alt0 g)) = 38 := rfl
  have hz : chain_size (streaming_std g speed) = 16 := by
    rw [streaming_std_eq]; rfl
  have hl : (streaming_std g speed).length = 2 := by
    rw [streaming_std_eq]; rfl
  rw [hb0, foldl_count_cls _ 0 38 5 (by norm_num) (by norm_num) (by norm_num)]
  simp only []
  rw [foldl_count_cls _ 0 _ _ (by norm_num) (u32_lt _) (u32_lt _)]
  rw [foldl_count_std _ _ _ _ (u32_lt _) (u32_lt _)]
  simp only [u32_add_u32, chain_size_layout, Nat.zero_add, hz, hl]

theorem size_foldl_count_cls (c : List Descriptor) (b n : Nat) :
    (c.foldl count_cls { size := 0, bytes := b, n_desc := n }).size = u32 (chain_size c) := by
  have h : ∀ (c : List Descriptor) (a : sizing), a.size < 2 ^ 32 →
      (c.foldl count_cls a).size = u32 (a.size + chain_size c) := by
    intro c
    induction c with
    | nil => intro a ha; simp [chain_size, u32_of_lt ha]
    | cons d t ih =>
      intro a _
      rw [List.foldl_cons, ih _ (u32_lt _)]
      simp only [count_cls, u32_add_u32, chain_size_cons, Nat.add_assoc]
  rw [h _ _ (by norm_num)]
  simp

theorem view_copy_descriptors (s : copy_state) (c : List Descriptor) :
    (UVC_COPY_DESCRIPTORS s c).view = s.view ++ chain_bytes c :=
  (copy_descriptors_spec s c).1

theorem cur_copy_descriptors (s : copy_state) (c : List Descriptor) :
    (UVC_COPY_DESCRIPTORS s c).cur = s.cur + chain_size c :=
  (copy_descriptors_spec s c).2.1

theorem dst_copy_descriptors (s : copy_state) (c : List Descriptor) :
    (UVC_COPY_DESCRIPTORS s c).dst = s.dst ++ (chain_offsets s.cur c).map some :=
  (copy_descriptors_spec s c).2.2

theorem hi_patch_control_header (s : copy_state) (h cs i : Nat) :
    (patch_control_header s h cs i).hi = max s.hi (h + VC_HEADER_baInterfaceNr + 1) := rfl

theorem hi_patch_streaming_header (s : copy_state) (h cs i : Nat) :
    (patch_streaming_header s h cs i).hi
      = max s.hi (h + VS_INPUT_HEADER_bEndpointAddress + 1) := rfl

theorem view_init (m : Nat → Nat) (d : List (Option Nat)) (h : Nat) :
    ({ mem := m, cur := 0, dst := d, hi := h } : copy_state).view = [] := rfl

theorem cur_patch_control_header (s : copy_state) (h cs i : Nat) :
    (patch_control_header s h cs i).cur = s.cur := rfl

theorem dst_patch_control_header (s : copy_state) (h cs i : Nat) :
    (patch_control_header s h cs i).dst = s.dst := rfl

theorem cur_patch_streaming_header (s : copy_state) (h cs i : Nat) :
    (patch_streaming_header s h cs i).cur = s.cur := rfl

theorem dst_patch_streaming_header (s : copy_state) (h cs i : Nat) :
    (patch_streaming_header s h cs i).dst = s.dst := rfl

theorem chain_size_head (g : uvc_statics) :
    chain_size [uvc_iad g, uvc_control_intf g] = 17 := rfl

theorem chain_size_middle (g : uvc_statics) :
    chain_size [uvc_control_ep g, uvc_control_cs_ep, uvc_streaming_intf_alt0 g] = 21 := rfl

theorem chain_size_streaming_std (g : uvc_statics) (speed : usb_device_speed) :
    chain_size (streaming_std g speed) = 16 := by
  rw [streaming_std_eq]; rfl

theorem cur_copy_descriptor (s : copy_state) (d : Descriptor) :
    (UVC_COPY_DESCRIPTOR s d).cur = s.cur + bLength d := rfl

theorem dst_copy_descriptor (s : copy_state) (d : Descriptor) :
    (UVC_COPY_DESCRIPTOR s d).dst = s.dst ++ [some s.cur] := rfl

theorem chain_size_nil : chain_size [] = 0 := rfl

theorem chain_bytes_nil : chain_bytes [] = [] := rfl

theorem bLength_uvc_iad (g : uvc_statics) : bLength (uvc_iad g) = 8 := rfl

theorem bLength_uvc_control_intf (g : uvc_statics) : bLength (uvc_control_intf g) = 9 := rfl

theorem bLength_uvc_control_ep (g : uvc_statics) : bLength (uvc_control_ep g) = 7 := rfl

theorem bLength_uvc_control_cs_ep : bLength uvc_control_cs_ep = 5 := rfl

theorem bLength_uvc_streaming_intf_alt0 (g : uvc_statics) :
    bLength (uvc_streaming_intf_alt0 g) = 9 := rfl

theorem bLength_uvc_streaming_intf_alt1 (g : uvc_statics) :
    bLength (uvc_streaming_intf_alt1 g) = 9 := rfl

theorem bLength_uvc_streaming_ep (g : uvc_statics) : bLength (uvc_streaming_ep g) = 7 := rfl

theorem cur_le_hi_copy_descriptor (s : copy_state) (d : Descriptor) (h : 0 < bLength d) :
    (UVC_COPY_DESCRIPTOR s d).cur ≤ (UVC_COPY_DESCRIPTOR s d).hi := by
  simp only [UVC_COPY_DESCRIPTOR]
  rw [if_neg (by omega)]
  exact le_max_right _ _

theorem hi_le_cur_pipeline (s2 : copy_state) (h2 : s2.hi ≤ s2.cur)
    (C M S Z : List Descriptor) (x y z w : Nat) (hM : 13 ≤ chain_size M)
    (hZ : 7 ≤ chain_size Z) :
    (UVC_COPY_DESCRIPTORS (patch_streaming_header
        (UVC_COPY_DESCRIPTORS (UVC_COPY_DESCRIPTORS
          (patch_control_header (UVC_COPY_DESCRIPTORS s2 C) s2.cur x y) M) S)
        (UVC_COPY_DESCRIPTORS
          (patch_control_header (UVC_COPY_DESCRIPTORS s2 C) s2.cur x y) M).cur z w) Z).hi
    ≤ (UVC_COPY_DESCRIPTORS (patch_streaming_header
        (UVC_COPY_DESCRIPTORS (UVC_COPY_DESCRIPTORS
          (patch_control_header (UVC_COPY_DESCRIPTORS s2 C) s2.cur x y) M) S)
        (UVC_COPY_DESCRIPTORS
          (patch_control_header (UVC_COPY_DESCRIPTORS s2 C) s2.cur x y) M).cur z w) Z).cur := by
  have f3 := hi_copy_descriptors s2 C
  have f7 := hi_copy_descriptors (patch_control_header (UVC_COPY_DESCRIPTORS s2 C) s2.cur x y) M
  have f8 := hi_copy_descriptors (UVC_COPY_DESCRIPTORS
          (patch_control_header (UVC_COPY_DESCRIPTORS s2 C) s2.cur x y) M) S
  have f10 := hi_copy_descriptors (patch_streaming_header
        (UVC_COPY_DESCRIPTORS (UVC_COPY_DESCRIPTORS
          (patch_control_header (UVC_COPY_DESCRIPTORS s2 C) s2.cur x y) M) S)
        (UVC_COPY_DESCRIPTORS
          (patch_control_header (UVC_COPY_DESCRIPTORS s2 C) s2.cur x y) M).cur z w) Z
  simp only [cur_copy_descriptors, cur_patch_control_header, cur_patch_streaming_header,
    hi_patch_control_header, hi_patch_streaming_header, VC_HEADER_baInterfaceNr,
    VS_INPUT_HEADER_bEndpointAddress] at f3 f7 f8 f10 ⊢
  omega

theorem chain_offsets_layout (uvc : uvc_device) (g : uvc_statics)
    (speed : usb_device_speed) :
    chain_offsets 0 (layout uvc g speed) =
      [0, 8] ++ chain_offsets 17 uvc.desc.control
        ++ [17 + chain_size uvc.desc.control, 24 + chain_size uvc.desc.control,
            29 + chain_size uvc.desc.control]
        ++ chain_offsets (38 + chain_size uvc.desc.control) (streaming_cls uvc speed)
        ++ [38 + chain_size uvc.desc.control + chain_size (streaming_cls uvc speed),
            47 + chain_size uvc.desc.control + chain_size (streaming_cls uvc speed)] := by
  have h1 : 17 + chain_size uvc.desc.control + 7 = 24 + chain_size uvc.desc.control := by omega
  have h2 : 24 + chain_size uvc.desc.control + 5 = 29 + chain_size uvc.desc.control := by omega
  have h3 : 29 + chain_size uvc.desc.control + 9 = 38 + chain_size uvc.desc.control := by omega
  have h4 : 38 + chain_size uvc.desc.control + chain_size (streaming_cls uvc speed) + 9
      = 47 + chain_size uvc.desc.control + chain_size (streaming_cls uvc speed) := by omega
  have h5 : 17 + chain_size uvc.desc.control + 21 = 38 + chain_size uvc.desc.control := by omega
  rw [layout, chain_offsets_append, chain_offsets_append, chain_offsets_append,
    chain_offsets_append]
  simp only [chain_size_append, chain_size_cons, chain_size_nil, chain_offsets,
    bLength_uvc_iad, bLength_uvc_control_intf, bLength_uvc_control_ep,
    bLength_uvc_control_cs_ep, bLength_uvc_streaming_intf_alt0,
    bLength_uvc_streaming_intf_alt1, Nat.zero_add, Nat.add_zero, Nat.reduceAdd, h1, h2, h3,
    h5, h4]

theorem uvc_copy_descriptors_spec (uvc : uvc_device) (g : uvc_statics)
    (speed : usb_device_speed) (m : Nat → Nat) :
    ∃ r, uvc_copy_descriptors uvc g speed (some m) = some r ∧
      r.n_desc = u32 (5 + uvc.desc.control.length + (streaming_cls uvc speed).length + 2) ∧
      r.bytes = u32 (chain_size (layout uvc g speed)) ∧
      r.hdr = (chain_offsets 0 (layout uvc g speed)).map some ++ [none] ∧
      r.len = chain_size (layout uvc g speed) ∧
      blob r = blob_spec uvc g speed ∧
      r.hi = r.len := by
  have e1 : (if speed = USB_SPEED_FULL then uvc.desc.fs_streaming else uvc.desc.hs_streaming)
      = streaming_cls uvc speed := rfl
  have e2 : (if speed = USB_SPEED_FULL then uvc_fs_streaming g else uvc_hs_streaming g)
      = streaming_std g speed := rfl
  have hsz := sizing_pass uvc g speed
  have h1 : 17 + chain_size uvc.desc.control + 7 = 24 + chain_size uvc.desc.control := by omega
  have h2 : 24 + chain_size uvc.desc.control + 5 = 29 + chain_size uvc.desc.control := by omega
  have h3 : 29 + chain_size uvc.desc.control + 9 = 38 + chain_size uvc.desc.control := by omega
  have h4 : 38 + chain_size uvc.desc.control + chain_size (streaming_cls uvc speed) + 9
      = 47 + chain_size uvc.desc.control + chain_size (streaming_cls uvc speed) := by omega
  refine ⟨_, rfl, ?_, ?_, ?_, ?_, ?_, ?_⟩
  · simp only [e1, e2, hsz]
  · simp only [e1, e2, hsz]
  · rw [chain_offsets_layout]
    simp only [e1, e2, size_foldl_count_cls, dst_copy_descriptor, cur_copy_descriptor,
      dst_copy_descriptors, cur_copy_descriptors,
      dst_patch_control_header, cur_patch_control_header, dst_patch_streaming_header,
      cur_patch_streaming_header, List.map_append, chain_offsets, List.map_cons,
      List.map_nil, bLength_uvc_iad, bLength_uvc_control_intf, bLength_uvc_control_ep,
      bLength_uvc_control_cs_ep, bLength_uvc_streaming_intf_alt0, streaming_std_eq,
      bLength_uvc_streaming_intf_alt1,
      List.append_assoc, List.nil_append, List.cons_append, Nat.zero_add, Nat.add_zero,
      Nat.reduceAdd, h1, h2, h3, h4]
  · simp only [e1, e2, size_foldl_count_cls, cur_copy_descriptor,
      cur_copy_descriptors, cur_patch_control_header, 
      cur_patch_streaming_header, chain_size_layout, chain_size_streaming_std,
      bLength_uvc_iad, bLength_uvc_control_intf, bLength_uvc_control_ep,
      bLength_uvc_control_cs_ep, bLength_uvc_streaming_intf_alt0]
    omega
  · show copy_state.view _ = _
    simp only [e1, e2, size_foldl_count_cls, view_copy_descriptor, view_copy_descriptors,
      view_patch_control_header, view_patch_streaming_header, cur_copy_descriptor,
      cur_copy_descriptors, cur_patch_control_header, cur_patch_streaming_header,
      bLength_uvc_iad, bLength_uvc_control_intf, bLength_uvc_control_ep,
      bLength_uvc_control_cs_ep, bLength_uvc_streaming_intf_alt0, Nat.zero_add,
      Nat.reduceAdd, h1, h2, h3, blob_spec, chain_bytes_cons, chain_bytes_nil,
      List.append_nil, List.append_assoc, view_init, List.nil_append]
  · apply Nat.le_antisymm
    · exact hi_le_cur_pipeline
        (UVC_COPY_DESCRIPTOR (UVC_COPY_DESCRIPTOR { mem := m, cur := 0, dst := [], hi := 0 }
          (uvc_iad g)) (uvc_control_intf g)) (Nat.le_refl 17) uvc.desc.control
        [uvc_control_ep g, uvc_control_cs_ep, uvc_streaming_intf_alt0 g]
        (streaming_cls uvc speed) (streaming_std g speed) _ _ _ _
        (by rw [chain_size_middle]; decide) (by rw [chain_size_streaming_std]; decide)
    · show copy_state.cur _ ≤ copy_state.hi _
      simp only [e2, streaming_std_eq]
      exact cur_le_hi_copy_descriptor _ _ (by rw [bLength_uvc_streaming_ep]; decide)

theorem length_set_le16 (l : List Nat) (a v : Nat) : (set_le16 l a v).length = l.length := by
  simp [set_le16]

theorem length_patched_control (l : List Nat) (h size intf : Nat) :
    (patched_control l h size intf).length = l.length := by
  simp [patched_control, length_set_le16]

theorem length_patched_streaming (l : List Nat) (h size addr : Nat) :
    (patched_streaming l h size addr).length = l.length := by
  simp [patched_streaming, length_set_le16]

theorem getElem?_patched_control (l : List Nat) (h size intf k : Nat) :
    (patched_control l h size intf)[k]? =
      if k < l.length then
        if k = h + 12 then some (intf % 256)
        else if k = h + 11 then some 1
        else if k = h + 6 then some (size % 65536 / 256)
        else if k = h + 5 then some (size % 65536 % 256)
        else l[k]?
      else none := by
  simp only [patched_control, set_le16, List.getElem?_set, List.length_set,
    VC_HEADER_wTotalLength, VC_HEADER_bInCollection, VC_HEADER_baInterfaceNr]
  by_cases hk : k < l.length
  · simp only [hk, if_true]
    split_ifs <;> first | rfl | omega
  · rw [if_neg hk]
    have : l[k]? = none := by simp; omega
    split_ifs <;> first | rfl | omega | exact this

theorem getElem?_patched_streaming (l : List Nat) (h size addr k : Nat) :
    (patched_streaming l h size addr)[k]? =
      if k < l.length then
        if k = h + 6 then some addr
        else if k = h + 5 then some (size % 65536 / 256)
        else if k = h + 4 then some (size % 65536 % 256)
        else l[k]?
      else none := by
  simp only [patched_streaming, set_le16, List.getElem?_set, List.length_set,
    VS_INPUT_HEADER_wTotalLength, VS_INPUT_HEADER_bEndpointAddress]
  by_cases hk : k < l.length
  · simp only [hk, if_true]
    split_ifs <;> first | rfl | omega
  · rw [if_neg hk]
    have : l[k]? = none := by simp; omega
    split_ifs <;> first | rfl | omega | exact this

theorem chain_bytes_layout (uvc : uvc_device) (g : uvc_statics) (speed : usb_device_speed) :
    chain_bytes (layout uvc g speed) =
      chain_bytes [uvc_iad g, uvc_control_intf g] ++ chain_bytes uvc.desc.control
        ++ chain_bytes [uvc_control_ep g, uvc_control_cs_ep, uvc_streaming_intf_alt0 g]
        ++ chain_bytes (streaming_cls uvc speed) ++ chain_bytes (streaming_std g speed) := by
  simp only [layout, chain_bytes_append, streaming_std_eq]

theorem getElem?_compose (A C M S Z : List Nat) (hA : A.length = 17) (hM : M.length = 21)
    (x y z w k : Nat) :
    (patched_streaming (patched_control (A ++ C) 17 x y ++ M ++ S) (38 + C.length) z w
        ++ Z)[k]? =
      if k < 38 + C.length + S.length ∧ k = 38 + C.length + 6 then some w
      else if k < 38 + C.length + S.length ∧ k = 38 + C.length + 5 then
        some (z % 65536 / 256)
      else if k < 38 + C.length + S.length ∧ k = 38 + C.length + 4 then
        some (z % 65536 % 256)
      else if k < 17 + C.length ∧ k = 29 then some (y % 256)
      else if k < 17 + C.length ∧ k = 28 then some 1
      else if k < 17 + C.length ∧ k = 23 then some (x % 65536 / 256)
      else if k < 17 + C.length ∧ k = 22 then some (x % 65536 % 256)
      else (A ++ C ++ M ++ S ++ Z)[k]? := by
  have hP : (patched_control (A ++ C) 17 x y).length = 17 + C.length := by
    rw [length_patched_control, List.length_append, hA]
  have hY : (patched_control (A ++ C) 17 x y ++ M ++ S).length = 38 + C.length + S.length := by
    rw [List.length_append, List.length_append, hP, hM]; omega
  have hAC : (A ++ C).length = 17 + C.length := by rw [List.length_append, hA]
  have hACMS : (A ++ C ++ M ++ S).length = 38 + C.length + S.length := by
    simp only [List.length_append, hA, hM]; omega
  have eqL : patched_control (A ++ C) 17 x y ++ M ++ S
      = patched_control (A ++ C) 17 x y ++ (M ++ S) := List.append_assoc _ _ _
  have eqR : A ++ C ++ M ++ S = (A ++ C) ++ (M ++ S) := List.append_assoc _ _ _
  by_cases h3 : k < 38 + C.length + S.length
  · rw [List.getElem?_append_left (by rw [length_patched_streaming, hY]; exact h3),
      getElem?_patched_streaming, hY, if_pos h3,
      @List.getElem?_append_left _ (A ++ C ++ M ++ S) Z k (by rw [hACMS]; exact h3), eqL, eqR]
    simp only [h3, true_and]
    by_cases h1 : k < 17 + C.length
    · rw [List.getElem?_append_left (by rw [hP]; exact h1),
        getElem?_patched_control, hAC, if_pos h1,
        @List.getElem?_append_left _ (A ++ C) (M ++ S) k (by rw [hAC]; exact h1)]
      simp only [h1, true_and]
    · rw [List.getElem?_append_right (by rw [hP]; omega), hP,
        @List.getElem?_append_right _ (A ++ C) (M ++ S) k (by rw [hAC]; omega), hAC]
      simp only [h1, false_and, if_false]
  · rw [List.getElem?_append_right (by rw [length_patched_streaming, hY]; omega),
      length_patched_streaming, hY,
      @List.getElem?_append_right _ (A ++ C ++ M ++ S) Z k (by rw [hACMS]; omega), hACMS]
    have h1 : ¬ k < 17 + C.length := by omega
    simp only [h1, h3, false_and, if_false]

theorem getElem?_blob_spec (uvc : uvc_device) (g : uvc_statics) (speed : usb_device_speed)
    (k : Nat) :
    (blob_spec uvc g speed)[k]? =
      if k < 38 + chain_size uvc.desc.control + chain_size (streaming_cls uvc speed)
          ∧ k = 38 + chain_size uvc.desc.control + 6 then
        some g.streaming_ep_bEndpointAddress
      else if k < 38 + chain_size uvc.desc.control + chain_size (streaming_cls uvc speed)
          ∧ k = 38 + chain_size uvc.desc.control + 5 then
        some (u32 (chain_size (streaming_cls uvc speed)) % 65536 / 256)
      else if k < 38 + chain_size uvc.desc.control + chain_size (streaming_cls uvc speed)
          ∧ k = 38 + chain_size uvc.desc.control + 4 then
        some (u32 (chain_size (streaming_cls uvc speed)) % 65536 % 256)
      else if k < 17 + chain_size uvc.desc.control ∧ k = 29 then
        some (uvc.streaming_intf % 256)
      else if k < 17 + chain_size uvc.desc.control ∧ k = 28 then some 1
      else if k < 17 + chain_size uvc.desc.control ∧ k = 23 then
        some (u32 (chain_size uvc.desc.control) % 65536 / 256)
      else if k < 17 + chain_size uvc.desc.control ∧ k = 22 then
        some (u32 (chain_size uvc.desc.control) % 65536 % 256)
      else (chain_bytes (layout uvc g speed))[k]? := by
  have hA : (chain_bytes [uvc_iad g, uvc_control_intf g]).length = 17 := by
    rw [length_chain_bytes, chain_size_head]
  have hM : (chain_bytes [uvc_control_ep g, uvc_control_cs_ep,
      uvc_streaming_intf_alt0 g]).length = 21 := by
    rw [length_chain_bytes, chain_size_middle]
  have h := getElem?_compose _ (chain_bytes uvc.desc.control) _ (chain_bytes (streaming_cls uvc speed))
    (chain_bytes (streaming_std g speed)) hA hM (u32 (chain_size uvc.desc.control))
    uvc.streaming_intf (u32 (chain_size (streaming_cls uvc speed)))
    g.streaming_ep_bEndpointAddress k
  rw [length_chain_bytes, length_chain_bytes] at h
  rw [chain_bytes_layout, blob_spec, ← h]

theorem first_bLength_le (c : List Descriptor) : first_bLength c ≤ chain_size c := by
  cases c with
  | nil => simp [first_bLength, bLength]
  | cons d t => simp [first_bLength, chain_size_cons]

theorem chain_offsets_head (o : Nat) (c : List Descriptor) (h : 0 < first_bLength c) :
    (chain_offsets o c)[0]? = some o := by
  cases c with
  | nil => simp [first_bLength, bLength] at h
  | cons d t => simp [chain_offsets]

theorem length_pos_of_first (c : List Descriptor) (h : 0 < first_bLength c) :
    0 < c.length := by
  cases c with
  | nil => simp [first_bLength, bLength] at h
  | cons d t => simp

theorem getElem?_at_length {α : Type} (pre post : List α) (x : α) (n : Nat)
    (h : pre.length = n) : (pre ++ x :: post)[n]? = some x := by
  subst h
  rw [List.getElem?_append_right (Nat.le_refl _), Nat.sub_self]
  simp

theorem exists_cons_of_first (c : List Descriptor) (h : 0 < first_bLength c) :
    ∃ d t, c = d :: t := by
  cases c with
  | nil => simp [first_bLength, bLength] at h
  | cons d t => exact ⟨d, t, rfl⟩

theorem hdr_spec_control_header (uvc : uvc_device) (g : uvc_statics)
    (speed : usb_device_speed) (h : 0 < first_bLength uvc.desc.control) :
    (hdr_spec uvc g speed)[2]? = some (some 17) := by
  obtain ⟨d, t, e⟩ := exists_cons_of_first _ h
  rw [hdr_spec, chain_offsets_layout, e]
  simp only [chain_offsets, List.map_append, List.map_cons, List.append_assoc,
    List.cons_append, List.nil_append, List.map_nil]
  exact getElem?_at_length [some 0, some 8] _ _ 2 rfl

theorem hdr_spec_streaming_header (uvc : uvc_device) (g : uvc_statics)
    (speed : usb_device_speed) (h : 0 < first_bLength (streaming_cls uvc speed)) :
    (hdr_spec uvc g speed)[5 + uvc.desc.control.length]?
      = some (some (38 + chain_size uvc.desc.control)) := by
  obtain ⟨d, t, e⟩ := exists_cons_of_first _ h
  have e2 : hdr_spec uvc g speed =
      ([some 0, some 8] ++ (chain_offsets 17 uvc.desc.control).map some
        ++ [some (17 + chain_size uvc.desc.control), some (24 + chain_size uvc.desc.control),
            some (29 + chain_size uvc.desc.control)])
      ++ some (38 + chain_size uvc.desc.control)
        :: ((chain_offsets (38 + chain_size uvc.desc.control + bLength d) t).map some
          ++ [some (38 + chain_size uvc.desc.control + chain_size (streaming_cls uvc speed)),
              some (47 + chain_size uvc.desc.control + chain_size (streaming_cls uvc speed)),
              none]) := by
    rw [hdr_spec, chain_offsets_layout, e]
    simp [chain_offsets]
  rw [e2]
  exact getElem?_at_length _ _ _ _ (by simp [length_chain_offsets]; omega)

theorem hdr_spec_streaming_ep (uvc : uvc_device) (g : uvc_statics)
    (speed : usb_device_speed) :
    (hdr_spec uvc g speed)[5 + uvc.desc.control.length
        + (streaming_cls uvc speed).length + 1]?
      = some (some (47 + chain_size uvc.desc.control + chain_size (streaming_cls uvc speed)))
    ∧ (hdr_spec uvc g speed)[5 + uvc.desc.control.length
        + (streaming_cls uvc speed).length + 2]? = some none := by
  have e1 : hdr_spec uvc g speed =
      ([some 0, some 8] ++ (chain_offsets 17 uvc.desc.control).map some
        ++ [some (17 + chain_size uvc.desc.control), some (24 + chain_size uvc.desc.control),
            some (29 + chain_size uvc.desc.control)]
        ++ (chain_offsets (38 + chain_size uvc.desc.control) (streaming_cls uvc speed)).map some
        ++ [some (38 + chain_size uvc.desc.control + chain_size (streaming_cls uvc speed))])
      ++ some (47 + chain_size uvc.desc.control + chain_size (streaming_cls uvc speed))
        :: [none] := by
    rw [hdr_spec, chain_offsets_layout]
    simp
  have e2 : hdr_spec uvc g speed =
      ([some 0, some 8] ++ (chain_offsets 17 uvc.desc.control).map some
        ++ [some (17 + chain_size uvc.desc.control), some (24 + chain_size uvc.desc.control),
            some (29 + chain_size uvc.desc.control)]
        ++ (chain_offsets (38 + chain_size uvc.desc.control) (streaming_cls uvc speed)).map some
        ++ [some (38 + chain_size uvc.desc.control + chain_size (streaming_cls uvc speed)),
            some (47 + chain_size uvc.desc.control + chain_size (streaming_cls uvc speed))])
      ++ none :: [] := by
    rw [hdr_spec, chain_offsets_layout]
    simp
  constructor
  · rw [e1]
    exact getElem?_at_length _ _ _ _ (by simp [length_chain_offsets]; omega)
  · rw [e2]
    exact getElem?_at_length _ _ _ _ (by simp [length_chain_offsets]; omega)

theorem blob_spec_control_fields (uvc : uvc_device) (g : uvc_statics)
    (speed : usb_device_speed) (h : 13 ≤ chain_size uvc.desc.control) :
    (blob_spec uvc g speed)[22]? = some (u32 (chain_size uvc.desc.control) % 65536 % 256) ∧
    (blob_spec uvc g speed)[23]? = some (u32 (chain_size uvc.desc.control) % 65536 / 256) ∧
    (blob_spec uvc g speed)[28]? = some 1 ∧
    (blob_spec uvc g speed)[29]? = some (uvc.streaming_intf % 256) := by
  refine ⟨?_, ?_, ?_, ?_⟩
  · rw [getElem?_blob_spec, if_neg (by omega), if_neg (by omega), if_neg (by omega),
      if_neg (by omega), if_neg (by omega), if_neg (by omega), if_pos (by omega)]
  · rw [getElem?_blob_spec, if_neg (by omega), if_neg (by omega), if_neg (by omega),
      if_neg (by omega), if_neg (by omega), if_pos (by omega)]
  · rw [getElem?_blob_spec, if_neg (by omega), if_neg (by omega), if_neg (by omega),
      if_neg (by omega), if_pos (by omega)]
  · rw [getElem?_blob_spec, if_neg (by omega), if_neg (by omega), if_neg (by omega),
      if_pos (by omega)]

theorem blob_spec_streaming_fields (uvc : uvc_device) (g : uvc_statics)
    (speed : usb_device_speed) (h : 7 ≤ chain_size (streaming_cls uvc speed)) :
    (blob_spec uvc g speed)[38 + chain_size uvc.desc.control + 4]?
      = some (u32 (chain_size (streaming_cls uvc speed)) % 65536 % 256) ∧
    (blob_spec uvc g speed)[38 + chain_size uvc.desc.control + 5]?
      = some (u32 (chain_size (streaming_cls uvc speed)) % 65536 / 256) ∧
    (blob_spec uvc g speed)[38 + chain_size uvc.desc.control + 6]?
      = some g.streaming_ep_bEndpointAddress := by
  refine ⟨?_, ?_, ?_⟩
  · rw [getElem?_blob_spec, if_neg (by omega), if_neg (by omega), if_pos (by omega)]
  · rw [getElem?_blob_spec, if_neg (by omega), if_pos (by omega)]
  · rw [getElem?_blob_spec, if_pos (by omega)]

theorem le16_split (v : Nat) (h : v < 65536) :
    u32 v % 65536 % 256 + 256 * (u32 v % 65536 / 256) = v := by
  have : u32 v = v := u32_of_lt (by omega)
  rw [this, Nat.mod_eq_of_lt h]
  omega

/-- C1. For every catalog whose control chain starts with a full-size control header
(`bLength` at least `UVC_DT_HEADER_SIZE(1)`), whose speed-selected streaming chain starts
with a full-size input header (`bLength` at least `UVC_DT_INPUT_HEADER_SIZE(0, 0)`) and
whose two chain sizes fit in 16 bits, and for every speed (in particular `USB_SPEED_FULL`
and `USB_SPEED_HIGH`): `uvc_copy_descriptors` returns a descriptor set in which the
little-endian `wTotalLength` of the control header (the record behind index entry 2) is
the sum of `bLength` over the control chain and the `wTotalLength` of the streaming input
header (the record behind index entry `5 + |control|`) is the sum of `bLength` over the
speed-selected streaming chain. -/
theorem wTotalLength_eq_chain_size (uvc : uvc_device) (g : uvc_statics)
    (speed : usb_device_speed) (m : Nat → Nat)
    (hc : UVC_DT_HEADER_SIZE 1 ≤ first_bLength uvc.desc.control)
    (hs : UVC_DT_INPUT_HEADER_SIZE 0 0 ≤ first_bLength (streaming_cls uvc speed))
    (hcs : chain_size uvc.desc.control < 65536)
    (hss : chain_size (streaming_cls uvc speed) < 65536) :
    ∃ r oc os, uvc_copy_descriptors uvc g speed (some m) = some r ∧
      r.hdr[2]? = some (some oc) ∧
      r.hdr[5 + uvc.desc.control.length]? = some (some os) ∧
      read_le16 (blob r) (oc + VC_HEADER_wTotalLength)
        = some (chain_size uvc.desc.control) ∧
      read_le16 (blob r) (os + VS_INPUT_HEADER_wTotalLength)
        = some (chain_size (streaming_cls uvc speed)) := by
  obtain ⟨r, hr, -, -, hhdr, -, hblob, -⟩ := uvc_copy_descriptors_spec uvc g speed m
  have hc1 : 13 ≤ first_bLength uvc.desc.control := hc
  have hs1 : 13 ≤ first_bLength (streaming_cls uvc speed) := hs
  have hc2 := first_bLength_le uvc.desc.control
  have hs2 := first_bLength_le (streaming_cls uvc speed)
  obtain ⟨c22, c23, -, -⟩ := blob_spec_control_fields uvc g speed (by omega)
  obtain ⟨s4, s5, -⟩ := blob_spec_streaming_fields uvc g speed (by omega)
  refine ⟨r, 17, 38 + chain_size uvc.desc.control, hr, ?_, ?_, ?_, ?_⟩
  · rw [hhdr]; exact hdr_spec_control_header uvc g speed (by omega)
  · rw [hhdr]; exact hdr_spec_streaming_header uvc g speed (by omega)
  · rw [hblob]
    show read_le16 _ 22 = _
    simp only [read_le16, c22, c23, le16_split _ hcs]
  · rw [hblob]
    simp only [read_le16, VS_INPUT_HEADER_wTotalLength, s4, s5, le16_split _ hss]

theorem length_blob (r : uvc_descriptors) : (blob r).length = r.len := by
  simp [blob]

/-- C2. For every catalog and speed `uvc_copy_descriptors` returns a descriptor set whose
records are, in this order, `uvc_iad`, `uvc_control_intf`, the control chain,
`uvc_control_ep`, `uvc_control_cs_ep`, `uvc_streaming_intf_alt0`, the speed-selected
streaming chain, `uvc_streaming_intf_alt1` and `uvc_streaming_ep` (the list `layout`):
the index holds one pointer per record of that list, each record starting where the one
before it ends, followed by NULL only; the blob is exactly as long as the records
together; and every byte of the blob outside the seven patched offsets is the byte of
the records copied back to back. -/
theorem records_in_layout_order (uvc : uvc_device) (g : uvc_statics)
    (speed : usb_device_speed) (m : Nat → Nat) :
    ∃ r, uvc_copy_descriptors uvc g speed (some m) = some r ∧
      r.hdr = (chain_offsets 0 (layout uvc g speed)).map some ++ [none] ∧
      (blob r).length = chain_size (layout uvc g speed) ∧
      ∀ k, k ∉ patched_offsets uvc →
        (blob r)[k]? = (chain_bytes (layout uvc g speed))[k]? := by
  obtain ⟨r, hr, -, -, hhdr, hlen, hblob, -⟩ := uvc_copy_descriptors_spec uvc g speed m
  refine ⟨r, hr, hhdr, by rw [length_blob, hlen], ?_⟩
  intro k hk
  simp only [patched_offsets, VC_HEADER_wTotalLength, VC_HEADER_bInCollection,
    VC_HEADER_baInterfaceNr, VS_INPUT_HEADER_wTotalLength, VS_INPUT_HEADER_bEndpointAddress,
    List.mem_cons, List.mem_singleton, List.not_mem_nil, or_false, not_or] at hk
  rw [hblob, getElem?_blob_spec, if_neg (by omega), if_neg (by omega), if_neg (by omega),
    if_neg (by omega), if_neg (by omega), if_neg (by omega), if_neg (by omega)]

theorem chain_size_replicate (n : Nat) (d : Descriptor) :
    chain_size (List.replicate n d) = n * bLength d := by
  simp [chain_size, List.map_replicate, List.sum_replicate]

theorem chain_bytes_streaming_std (g : uvc_statics) (speed : usb_device_speed) :
    chain_bytes (streaming_std g speed) =
      [USB_DT_INTERFACE_SIZE, USB_DT_INTERFACE, g.streaming_intf_alt1_bInterfaceNumber, 1, 1,
       USB_CLASS_VIDEO, UVC_SC_VIDEOSTREAMING, 0x00, g.streaming_intf_alt1_iInterface,
       USB_DT_ENDPOINT_SIZE, USB_DT_ENDPOINT, g.streaming_ep_bEndpointAddress,
       USB_ENDPOINT_XFER_ISOC, 0, 2, 1] := by
  rw [streaming_std_eq]
  rfl

theorem blob_spec_streaming_ep_address (uvc : uvc_device) (g : uvc_statics)
    (speed : usb_device_speed) :
    (blob_spec uvc g speed)[47 + chain_size uvc.desc.control
        + chain_size (streaming_cls uvc speed) + EP_bEndpointAddress]?
      = some g.streaming_ep_bEndpointAddress := by
  have hlen : (chain_bytes [uvc_iad g, uvc_control_intf g] ++ chain_bytes uvc.desc.control
        ++ chain_bytes [uvc_control_ep g, uvc_control_cs_ep, uvc_streaming_intf_alt0 g]
        ++ chain_bytes (streaming_cls uvc speed)).length
      = 38 + chain_size uvc.desc.control + chain_size (streaming_cls uvc speed) := by
    simp only [List.length_append, length_chain_bytes, chain_size_head, chain_size_middle]
    omega
  rw [getElem?_blob_spec, if_neg (by omega), if_neg (by omega), if_neg (by omega),
    if_neg (by omega), if_neg (by omega), if_neg (by omega), if_neg (by omega),
    chain_bytes_layout, List.getElem?_append_right (by rw [hlen, EP_bEndpointAddress]; omega),
    hlen, chain_bytes_streaming_std]
  have e : 47 + chain_size uvc.desc.control + chain_size (streaming_cls uvc speed)
      + EP_bEndpointAddress
      - (38 + chain_size uvc.desc.control + chain_size (streaming_cls uvc speed)) = 11 := by
    rw [EP_bEndpointAddress]; omega
  rw [e]
  rfl

/-- C5. For every catalog whose control chain starts with a full-size control header,
whose speed-selected streaming chain starts with a full-size input header, and for every
assigned streaming interface number (a value of the 8-bit field `bInterfaceNumber`) and
streaming endpoint address (the field `bEndpointAddress` of `uvc_streaming_ep`):
in the composed blob the control header (behind index entry 2) has `bInCollection = 1`
and `baInterfaceNr[0]` equal to the streaming interface number, and the streaming input
header (behind index entry `5 + |control|`) has `bEndpointAddress` equal to the assigned
address, which is also the `bEndpointAddress` of the streaming endpoint descriptor, the
last record of the blob (its index entry is followed by the terminating NULL). -/
theorem back_references_patched (uvc : uvc_device) (g : uvc_statics)
    (speed : usb_device_speed) (m : Nat → Nat)
    (hc : UVC_DT_HEADER_SIZE 1 ≤ first_bLength uvc.desc.control)
    (hs : UVC_DT_INPUT_HEADER_SIZE 0 0 ≤ first_bLength (streaming_cls uvc speed))
    (hi : uvc.streaming_intf < 256) :
    ∃ r oc os oe, uvc_copy_descriptors uvc g speed (some m) = some r ∧
      r.hdr[2]? = some (some oc) ∧
      r.hdr[5 + uvc.desc.control.length]? = some (some os) ∧
      r.hdr[5 + uvc.desc.control.length + (streaming_cls uvc speed).length + 1]?
        = some (some oe) ∧
      r.hdr[5 + uvc.desc.control.length + (streaming_cls uvc speed).length + 2]?
        = some none ∧
      (blob r)[oc + VC_HEADER_bInCollection]? = some 1 ∧
      (blob r)[oc + VC_HEADER_baInterfaceNr]? = some uvc.streaming_intf ∧
      (blob r)[os + VS_INPUT_HEADER_bEndpointAddress]?
        = some g.streaming_ep_bEndpointAddress ∧
      (blob r)[oe + EP_bEndpointAddress]? = some g.streaming_ep_bEndpointAddress := by
  obtain ⟨r, hr, -, -, hhdr, -, hblob, -⟩ := uvc_copy_descriptors_spec uvc g speed m
  have hc1 : 13 ≤ first_bLength uvc.desc.control := hc
  have hs1 : 13 ≤ first_bLength (streaming_cls uvc speed) := hs
  have hc2 := first_bLength_le uvc.desc.control
  have hs2 := first_bLength_le (streaming_cls uvc speed)
  obtain ⟨-, -, c28, c29⟩ := blob_spec_control_fields uvc g speed (by omega)
  obtain ⟨-, -, s6⟩ := blob_spec_streaming_fields uvc g speed (by omega)
  obtain ⟨e1, e2⟩ := hdr_spec_streaming_ep uvc g speed
  refine ⟨r, 17, 38 + chain_size uvc.desc.control,
    47 + chain_size uvc.desc.control + chain_size (streaming_cls uvc speed), hr,
    ?_, ?_, ?_, ?_, ?_, ?_, ?_, ?_⟩
  · rw [hhdr]; exact hdr_spec_control_header uvc g speed (by omega)
  · rw [hhdr]; exact hdr_spec_streaming_header uvc g speed (by omega)
  · rw [hhdr]; exact e1
  · rw [hhdr]; exact e2
  · rw [hblob]; exact c28
  · rw [hblob]
    show (blob_spec uvc g speed)[29]? = _
    rw [c29, Nat.mod_eq_of_lt hi]
  · rw [hblob]; exact s6
  · rw [hblob]; exact blob_spec_streaming_ep_address uvc g speed

/-- C6. `uvc_function_set_alt` on the control interface with alternate 0 returns 0 in
every state. From Disconnected it queues exactly one event, of type Connect and carrying
the gadget speed, and moves to Connected, changing nothing else; from Connected or
Streaming it queues no event and leaves the device as it is. In no case is a call made on
an endpoint. -/
theorem set_alt_control_zero (uvc : uvc_device) (w : uvc_world) :
    (uvc_function_set_alt uvc w uvc.control_intf 0).ret = 0 ∧
    (uvc_function_set_alt uvc w uvc.control_intf 0).world.ep_ops = w.ep_ops ∧
    (uvc_function_set_alt uvc w uvc.control_intf 0).world.statics = w.statics ∧
    (uvc_function_set_alt uvc w uvc.control_intf 0).world.speed = w.speed ∧
    match uvc.state with
    | UVC_STATE_DISCONNECTED =>
      (∃ e, (uvc_function_set_alt uvc w uvc.control_intf 0).world.events = w.events ++ [e] ∧
        e.type = UVC_EVENT_CONNECT ∧ uvc_event_speed e = w.speed.val) ∧
      (uvc_function_set_alt uvc w uvc.control_intf 0).uvc
        = { uvc with state := UVC_STATE_CONNECTED }
    | _ =>
      (uvc_function_set_alt uvc w uvc.control_intf 0).world.events = w.events ∧
      (uvc_function_set_alt uvc w uvc.control_intf 0).uvc = uvc := by
  cases hs : uvc.state <;> cases hv : w.speed <;>
    simp [uvc_function_set_alt, hs, hv, v4l2_event_queue, connect_event, uvc_event_speed,
      le32, usb_device_speed.val]

/-- C9. `uvc_function_get_alt` never changes the device or its surroundings (no event,
no endpoint call). It returns 0 for the control interface in every state; for the
streaming interface it returns 1 when the state is Streaming and 0 otherwise, so 1 if
and only if the state is Streaming; for every other interface number it returns
`-EINVAL`. -/
theorem get_alt_result (uvc : uvc_device) (w : uvc_world) (interface : Nat) :
    (uvc_function_get_alt uvc w interface).uvc = uvc ∧
    (uvc_function_get_alt uvc w interface).world = w ∧
    (uvc_function_get_alt uvc w uvc.control_intf).ret = 0 ∧
    (if interface = uvc.control_intf then
      (uvc_function_get_alt uvc w interface).ret = 0
    else if interface = uvc.streaming_intf then
      ((uvc_function_get_alt uvc w interface).ret = 1 ↔ uvc.state = UVC_STATE_STREAMING) ∧
      ((uvc_function_get_alt uvc w interface).ret = 0 ↔ uvc.state ≠ UVC_STATE_STREAMING)
    else
      (uvc_function_get_alt uvc w interface).ret = -EINVAL) := by
  refine ⟨?_, ?_, ?_, ?_⟩
  · unfold uvc_function_get_alt; split_ifs <;> rfl
  · unfold uvc_function_get_alt; split_ifs <;> rfl
  · simp [uvc_function_get_alt]
  · by_cases h1 : interface = uvc.control_intf
    · simp [uvc_function_get_alt, h1]
    · by_cases h2 : interface = uvc.streaming_intf
      · subst h2
        by_cases h3 : uvc.state = UVC_STATE_STREAMING <;>
          simp [uvc_function_get_alt, h1, h3]
      · simp [uvc_function_get_alt, h1, h2]

/-- C10. A call of `uvc_function_set_alt` is rejected exactly when (a) the interface is
the control interface and `alt` is not 0, or (b) the interface is the streaming interface
and `alt` is neither 0 nor 1, or (c) the interface is neither of the two. A rejected
call returns `-EINVAL` and leaves the device and its surroundings as they are (no state
change, no event, no endpoint call); every other call returns 0. -/
theorem set_alt_rejected (uvc : uvc_device) (w : uvc_world) (interface alt : Nat) :
    if (interface = uvc.control_intf ∧ alt ≠ 0)
        ∨ (interface = uvc.streaming_intf ∧ alt ≠ 0 ∧ alt ≠ 1)
        ∨ (interface ≠ uvc.control_intf ∧ interface ≠ uvc.streaming_intf) then
      uvc_function_set_alt uvc w interface alt = { ret := -EINVAL, uvc := uvc, world := w }
    else
      (uvc_function_set_alt uvc w interface alt).ret = 0 := by
  by_cases h1 : interface = uvc.control_intf
  · by_cases h2 : alt = 0
    · subst h2
      rw [if_neg (by simp [h1])]
      by_cases h3 : uvc.state = UVC_STATE_DISCONNECTED <;>
        simp [uvc_function_set_alt, h1, h3]
    · rw [if_pos (Or.inl ⟨h1, h2⟩)]
      simp [uvc_function_set_alt, h1, h2]
  · by_cases h2 : interface = uvc.streaming_intf
    · subst h2
      match alt with
      | 0 =>
        rw [if_neg (by simp [h1])]
        by_cases h3 : uvc.state = UVC_STATE_STREAMING <;>
          simp [uvc_function_set_alt, h1, h3]
      | 1 =>
        rw [if_neg (by simp [h1])]
        by_cases h3 : uvc.state = UVC_STATE_CONNECTED <;>
          simp [uvc_function_set_alt, h1, h3]
      | n + 2 =>
        rw [if_pos (Or.inr (Or.inl ⟨rfl, by omega, by omega⟩))]
        simp [uvc_function_set_alt, h1]
    · rw [if_pos (Or.inr (Or.inr ⟨h1, h2⟩))]
      simp [uvc_function_set_alt, h1, h2]

theorem map_snd_with_offsets (o : Nat) (rs : List (List Nat)) :
    (with_offsets o rs).map Prod.snd = rs := by
  induction rs generalizing o with
  | nil => rfl
  | cons r t ih => simp [with_offsets, ih]

theorem map_fst_with_offsets (o : Nat) (rs : List (List Nat)) (c : List Descriptor)
    (h : rs.map List.length = c.map bLength) :
    (with_offsets o rs).map Prod.fst = chain_offsets o c := by
  induction rs generalizing o c with
  | nil =>
    cases c with
    | nil => rfl
    | cons d t => simp at h
  | cons r t ih =>
    cases c with
    | nil => simp at h
    | cons d t2 =>
      simp only [List.map_cons, List.cons.injEq] at h
      simp only [with_offsets, chain_offsets, List.map_cons, h.1, ih _ _ h.2]

theorem walk_records_flatten (rs : List (List Nat))
    (h : ∀ r ∈ rs, r.head? = some r.length) (fuel off : Nat)
    (hf : rs.length ≤ fuel) :
    walk_records fuel off rs.flatten = some (with_offsets off rs) := by
  induction rs generalizing fuel off with
  | nil => cases fuel <;> rfl
  | cons r t ih =>
    have hr := h r (List.mem_cons_self _ _)
    have ht : ∀ x ∈ t, x.head? = some x.length := fun x hx => h x (List.mem_cons_of_mem _ hx)
    cases r with
    | nil => simp at hr
    | cons b rest =>
      simp only [List.head?_cons, Option.some.injEq, List.length_cons] at hr
      cases fuel with
      | zero => simp at hf
      | succ n =>
        have hn : t.length ≤ n := by simpa using hf
        have e : (b :: rest) ++ t.flatten = b :: (rest ++ t.flatten) := rfl
        rw [List.flatten_cons, e, walk_records]
        have hlen : (b :: rest).length = b := by simp [hr]
        rw [if_neg (by simp only [List.length_append]; omega)]
        have hd : (b :: (rest ++ t.flatten)).drop b = t.flatten := by
          have h1 := List.drop_left (b :: rest) t.flatten
          rwa [hlen] at h1
        have htk : (b :: (rest ++ t.flatten)).take b = b :: rest := by
          have h1 := List.take_left (b :: rest) t.flatten
          rwa [hlen] at h1
        rw [hd, htk, ih ht n (off + b) hn]
        simp [with_offsets, hr]

theorem set_append_left_of_length {α : Type} (A B : List α) (n k : Nat) (x : α)
    (h : A.length + k = n) : (A ++ B).set n x = A ++ B.set k x := by
  subst h
  rw [List.set_append, if_neg (by omega)]
  congr 2
  omega

theorem set_append_right_of_lt {α : Type} (H T : List α) (k : Nat) (x : α)
    (h : k < H.length) : (H ++ T).set k x = H.set k x ++ T := by
  rw [List.set_append, if_pos h]

theorem patched_control_append_left (A B : List Nat) (n k x y : Nat)
    (h : A.length + k = n) :
    patched_control (A ++ B) n x y = A ++ patched_control B k x y := by
  simp only [patched_control, set_le16]
  rw [set_append_left_of_length A B _ (k + VC_HEADER_wTotalLength) _ (by omega),
    set_append_left_of_length A _ _ (k + VC_HEADER_wTotalLength + 1) _ (by omega),
    set_append_left_of_length A _ _ (k + VC_HEADER_bInCollection) _ (by omega),
    set_append_left_of_length A _ _ (k + VC_HEADER_baInterfaceNr) _ (by omega)]

theorem patched_control_append_right (H T : List Nat) (k x y : Nat)
    (h : k + 13 ≤ H.length) :
    patched_control (H ++ T) k x y = patched_control H k x y ++ T := by
  simp only [patched_control, set_le16, VC_HEADER_wTotalLength, VC_HEADER_bInCollection,
    VC_HEADER_baInterfaceNr]
  rw [set_append_right_of_lt H T _ _ (by omega),
    set_append_right_of_lt _ T _ _ (by simp only [List.length_set]; omega),
    set_append_right_of_lt _ T _ _ (by simp only [List.length_set]; omega),
    set_append_right_of_lt _ T _ _ (by simp only [List.length_set]; omega)]

theorem patched_streaming_append_left (A B : List Nat) (n k x y : Nat)
    (h : A.length + k = n) :
    patched_streaming (A ++ B) n x y = A ++ patched_streaming B k x y := by
  simp only [patched_streaming, set_le16]
  rw [set_append_left_of_length A B _ (k + VS_INPUT_HEADER_wTotalLength) _ (by omega),
    set_append_left_of_length A _ _ (k + VS_INPUT_HEADER_wTotalLength + 1) _ (by omega),
    set_append_left_of_length A _ _ (k + VS_INPUT_HEADER_bEndpointAddress) _ (by omega)]

theorem patched_streaming_append_right (H T : List Nat) (k x y : Nat)
    (h : k + 7 ≤ H.length) :
    patched_streaming (H ++ T) k x y = patched_streaming H k x y ++ T := by
  simp only [patched_streaming, set_le16, VS_INPUT_HEADER_wTotalLength,
    VS_INPUT_HEADER_bEndpointAddress]
  rw [set_append_right_of_lt H T _ _ (by omega),
    set_append_right_of_lt _ T _ _ (by simp only [List.length_set]; omega),
    set_append_right_of_lt _ T _ _ (by simp only [List.length_set]; omega)]

theorem blob_spec_eq_flatten (uvc : uvc_device) (g : uvc_statics) (speed : usb_device_speed)
    (hc : 13 ≤ first_bLength uvc.desc.control)
    (hs : 7 ≤ first_bLength (streaming_cls uvc speed)) :
    blob_spec uvc g speed = (expected_records uvc g speed).flatten := by
  obtain ⟨dc, tc, ec⟩ := exists_cons_of_first _ (show 0 < first_bLength uvc.desc.control by omega)
  obtain ⟨ds, ts, es⟩ := exists_cons_of_first _
    (show 0 < first_bLength (streaming_cls uvc speed) by omega)
  have hdc : 13 ≤ (copy_bytes dc).length := by
    rw [length_copy_bytes]; rw [ec] at hc; exact hc
  have hds : 7 ≤ (copy_bytes ds).length := by
    rw [length_copy_bytes]; rw [es] at hs; exact hs
  have hA : (chain_bytes [uvc_iad g, uvc_control_intf g]).length + 0 = 17 := by
    rw [length_chain_bytes, chain_size_head]
  rw [blob_spec, expected_records]
  rw [show chain_bytes uvc.desc.control = copy_bytes dc ++ chain_bytes tc by
    rw [ec, chain_bytes_cons]]
  rw [show chain_bytes (streaming_cls uvc speed) = copy_bytes ds ++ chain_bytes ts by
    rw [es, chain_bytes_cons]]
  rw [patched_control_append_left _ _ 17 0 _ _ hA,
    patched_control_append_right _ _ 0 _ _ (by omega)]
  have hP : (chain_bytes [uvc_iad g, uvc_control_intf g]
      ++ (patched_control (copy_bytes dc) 0 (u32 (chain_size uvc.desc.control))
          uvc.streaming_intf ++ chain_bytes tc)
      ++ chain_bytes [uvc_control_ep g, uvc_control_cs_ep, uvc_streaming_intf_alt0 g]).length
      + 0 = 38 + chain_size uvc.desc.control := by
    have hcs : chain_size uvc.desc.control = bLength dc + chain_size tc := by
      rw [ec, chain_size_cons]
    simp only [List.length_append, length_chain_bytes, length_patched_control,
      length_copy_bytes, chain_size_head, chain_size_middle]
    omega
  rw [patched_streaming_append_left _ _ _ 0 _ _ hP,
    patched_streaming_append_right _ _ 0 _ _ (by omega)]
  simp only [ec, es, List.map_cons, map_head, chain_bytes, List.flatten_append,
    List.flatten_cons, List.flatten_nil, List.append_assoc, List.append_nil,
    streaming_std_eq, List.cons_append, List.nil_append, List.map_nil]

theorem head?_memcpy_src (src : List Nat) (n : Nat) (h : 0 < n) :
    (memcpy_src src n).head? = some (src.getD 0 0) := by
  cases n with
  | zero => omega
  | succ k => simp [memcpy_src, List.range_succ_eq_map]

theorem head?_copy_bytes (d : Descriptor) (h : 0 < bLength d) :
    (copy_bytes d).head? = some (copy_bytes d).length := by
  rw [length_copy_bytes, copy_bytes, head?_memcpy_src _ _ h]
  rfl

theorem head?_set_of_pos {α : Type} (l : List α) (k : Nat) (x : α) (h : 0 < k) :
    (l.set k x).head? = l.head? := by
  cases l with
  | nil => rfl
  | cons a t =>
    cases k with
    | zero => omega
    | succ j => rfl

theorem head?_patched_control (l : List Nat) (x y : Nat) :
    (patched_control l 0 x y).head? = l.head? := by
  simp only [patched_control, set_le16, VC_HEADER_wTotalLength, VC_HEADER_bInCollection,
    VC_HEADER_baInterfaceNr]
  rw [head?_set_of_pos _ _ _ (by omega), head?_set_of_pos _ _ _ (by omega),
    head?_set_of_pos _ _ _ (by omega), head?_set_of_pos _ _ _ (by omega)]

theorem head?_patched_streaming (l : List Nat) (x y : Nat) :
    (patched_streaming l 0 x y).head? = l.head? := by
  simp only [patched_streaming, set_le16, VS_INPUT_HEADER_wTotalLength,
    VS_INPUT_HEADER_bEndpointAddress]
  rw [head?_set_of_pos _ _ _ (by omega), head?_set_of_pos _ _ _ (by omega),
    head?_set_of_pos _ _ _ (by omega)]

theorem map_head_wf (f : List Nat → List Nat) (c : List Descriptor)
    (hf : ∀ l, (f l).head? = l.head? ∧ (f l).length = l.length)
    (hc : ∀ d ∈ c, 0 < bLength d) :
    (∀ r ∈ map_head f (c.map copy_bytes), r.head? = some r.length) ∧
    (map_head f (c.map copy_bytes)).map List.length = c.map bLength := by
  cases c with
  | nil => simp [map_head]
  | cons d t =>
    simp only [List.map_cons, map_head]
    constructor
    · intro r hr
      rcases List.mem_cons.1 hr with h | h
      · rw [h, (hf _).1, (hf _).2]
        exact head?_copy_bytes d (hc d (List.mem_cons_self _ _))
      · obtain ⟨e, he, rfl⟩ := List.mem_map.1 h
        exact head?_copy_bytes e (hc e (List.mem_cons_of_mem _ he))
    · simp [(hf _).2, length_copy_bytes, Function.comp_def]

theorem expected_records_wf (uvc : uvc_device) (g : uvc_statics) (speed : usb_device_speed)
    (hc : ∀ d ∈ uvc.desc.control, 0 < bLength d)
    (hs : ∀ d ∈ streaming_cls uvc speed, 0 < bLength d) :
    (∀ r ∈ expected_records uvc g speed, r.head? = some r.length) ∧
    (expected_records uvc g speed).map List.length = (layout uvc g speed).map bLength := by
  have h1 := map_head_wf
    (fun b => patched_control b 0 (u32 (chain_size uvc.desc.control)) uvc.streaming_intf)
    uvc.desc.control (fun l => ⟨head?_patched_control _ _ _, length_patched_control _ _ _ _⟩) hc
  have h2 := map_head_wf
    (fun b => patched_streaming b 0 (u32 (chain_size (streaming_cls uvc speed)))
      g.streaming_ep_bEndpointAddress)
    (streaming_cls uvc speed)
    (fun l => ⟨head?_patched_streaming _ _ _, length_patched_streaming _ _ _ _⟩) hs
  constructor
  · intro r hr
    simp only [expected_records, List.mem_append, List.mem_cons, List.mem_singleton,
      List.not_mem_nil, or_false] at hr
    rcases hr with (((((h | h) | h) | h | h | h) | h) | h | h)
    · rw [h]; exact head?_copy_bytes _ (by rw [bLength_uvc_iad]; decide)
    · rw [h]; exact head?_copy_bytes _ (by rw [bLength_uvc_control_intf]; decide)
    · exact h1.1 r h
    · rw [h]; exact head?_copy_bytes _ (by rw [bLength_uvc_control_ep]; decide)
    · rw [h]; exact head?_copy_bytes _ (by rw [bLength_uvc_control_cs_ep]; decide)
    · rw [h]; exact head?_copy_bytes _ (by rw [bLength_uvc_streaming_intf_alt0]; decide)
    · exact h2.1 r h
    · rw [h]; exact head?_copy_bytes _ (by rw [bLength_uvc_streaming_intf_alt1]; decide)
    · rw [h]; exact head?_copy_bytes _ (by rw [bLength_uvc_streaming_ep]; decide)
  · simp only [expected_records, layout, List.map_append, h1.2, h2.2, List.map_cons,
      List.map_nil, length_copy_bytes]

theorem length_le_length_flatten (rs : List (List Nat))
    (h : ∀ r ∈ rs, r.head? = some r.length) : rs.length ≤ rs.flatten.length := by
  induction rs with
  | nil => simp
  | cons r t ih =>
    have hr := h r (List.mem_cons_self _ _)
    have ht := ih (fun x hx => h x (List.mem_cons_of_mem _ hx))
    cases r with
    | nil => simp at hr
    | cons b rest =>
      simp only [List.flatten_cons, List.length_append, List.length_cons]
      omega

theorem length_with_offsets (o : Nat) (rs : List (List Nat)) :
    (with_offsets o rs).length = rs.length := by
  rw [← List.length_map (with_offsets o rs) Prod.snd, map_snd_with_offsets]

theorem length_expected_records (uvc : uvc_device) (g : uvc_statics)
    (speed : usb_device_speed) :
    (expected_records uvc g speed).length
      = 5 + uvc.desc.control.length + (streaming_cls uvc speed).length + 2 := by
  have h : ∀ (f : List Nat → List Nat) (l : List (List Nat)),
      (map_head f l).length = l.length := by
    intro f l; cases l <;> rfl
  simp only [expected_records, List.length_append, h, List.length_map, List.length_cons,
    List.length_nil]
  omega

/-- C4. Round trip: for every catalog whose records all have `bLength` at least 2 and
whose two chain headers are full-size, walking the blob built by `uvc_copy_descriptors`
from offset 0 by length prefix ends exactly at the end of the blob; the offsets visited
are exactly the pointers of the index (which the NULL follows); the walk yields
`5 + |control| + |streaming| + 2` records; and the records are byte for byte the source
records in layout order, except that the control header carries the patched
`wTotalLength`, `bInCollection` and `baInterfaceNr[0]` and the streaming input header
the patched `wTotalLength` and `bEndpointAddress`. -/
theorem walk_blob_round_trip (uvc : uvc_device) (g : uvc_statics)
    (speed : usb_device_speed) (m : Nat → Nat)
    (hc2 : ∀ d ∈ uvc.desc.control, 2 ≤ bLength d)
    (hs2 : ∀ d ∈ streaming_cls uvc speed, 2 ≤ bLength d)
    (hc : UVC_DT_HEADER_SIZE 1 ≤ first_bLength uvc.desc.control)
    (hs : UVC_DT_INPUT_HEADER_SIZE 0 0 ≤ first_bLength (streaming_cls uvc speed)) :
    ∃ r recs, uvc_copy_descriptors uvc g speed (some m) = some r ∧
      parse_blob (blob r) = some recs ∧
      (recs.map Prod.fst).map some ++ [none] = r.hdr ∧
      recs.length = 5 + uvc.desc.control.length + (streaming_cls uvc speed).length + 2 ∧
      recs.map Prod.snd = expected_records uvc g speed := by
  obtain ⟨r, hr, -, -, hhdr, -, hblob, -⟩ := uvc_copy_descriptors_spec uvc g speed m
  have hc1 : 13 ≤ first_bLength uvc.desc.control := hc
  have hs1 : 13 ≤ first_bLength (streaming_cls uvc speed) := hs
  obtain ⟨hwf, hlens⟩ := expected_records_wf uvc g speed
    (fun d hd => by have := hc2 d hd; omega) (fun d hd => by have := hs2 d hd; omega)
  have hflat := blob_spec_eq_flatten uvc g speed hc1 (by omega)
  refine ⟨r, with_offsets 0 (expected_records uvc g speed), hr, ?_, ?_, ?_, ?_⟩
  · rw [parse_blob, hblob, hflat]
    exact walk_records_flatten _ hwf _ 0 (length_le_length_flatten _ hwf)
  · rw [hhdr, map_fst_with_offsets 0 _ _ hlens]
  · rw [length_with_offsets, length_expected_records]
  · exact map_snd_with_offsets 0 _

/-- C1 at the sample catalog, full speed. -/
theorem wTotalLength_eq_chain_size_witness :
    (UVC_DT_HEADER_SIZE 1 ≤ first_bLength sample_uvc.desc.control ∧
      UVC_DT_INPUT_HEADER_SIZE 0 0 ≤ first_bLength (streaming_cls sample_uvc USB_SPEED_FULL) ∧
      chain_size sample_uvc.desc.control < 65536 ∧
      chain_size (streaming_cls sample_uvc USB_SPEED_FULL) < 65536) ∧
    ∃ r oc os,
      uvc_copy_descriptors sample_uvc sample_statics USB_SPEED_FULL (some (fun _ => 0))
        = some r ∧
      r.hdr[2]? = some (some oc) ∧
      r.hdr[5 + sample_uvc.desc.control.length]? = some (some os) ∧
      read_le16 (blob r) (oc + VC_HEADER_wTotalLength)
        = some (chain_size sample_uvc.desc.control) ∧
      read_le16 (blob r) (os + VS_INPUT_HEADER_wTotalLength)
        = some (chain_size (streaming_cls sample_uvc USB_SPEED_FULL)) :=
  ⟨⟨by decide, by decide, by decide, by decide⟩,
   wTotalLength_eq_chain_size sample_uvc sample_statics USB_SPEED_FULL (fun _ => 0)
     (by decide) (by decide) (by decide) (by decide)⟩

/-- C4 at the sample catalog, high speed. -/
theorem walk_blob_round_trip_witness :
    ((∀ d ∈ sample_uvc.desc.control, 2 ≤ bLength d) ∧
      (∀ d ∈ streaming_cls sample_uvc USB_SPEED_HIGH, 2 ≤ bLength d) ∧
      UVC_DT_HEADER_SIZE 1 ≤ first_bLength sample_uvc.desc.control ∧
      UVC_DT_INPUT_HEADER_SIZE 0 0 ≤ first_bLength (streaming_cls sample_uvc USB_SPEED_HIGH)) ∧
    ∃ r recs,
      uvc_copy_descriptors sample_uvc sample_statics USB_SPEED_HIGH (some (fun _ => 0))
        = some r ∧
      parse_blob (blob r) = some recs ∧
      (recs.map Prod.fst).map some ++ [none] = r.hdr ∧
      recs.length = 5 + sample_uvc.desc.control.length
        + (streaming_cls sample_uvc USB_SPEED_HIGH).length + 2 ∧
      recs.map Prod.snd = expected_records sample_uvc sample_statics USB_SPEED_HIGH :=
  ⟨⟨by decide, by decide, by decide, by decide⟩,
   walk_blob_round_trip sample_uvc sample_statics USB_SPEED_HIGH (fun _ => 0)
     (by decide) (by decide) (by decide) (by decide)⟩

/-- C5 at the sample catalog, high speed. -/
theorem back_references_patched_witness :
    (UVC_DT_HEADER_SIZE 1 ≤ first_bLength sample_uvc.desc.control ∧
      UVC_DT_INPUT_HEADER_SIZE 0 0 ≤ first_bLength (streaming_cls sample_uvc USB_SPEED_HIGH) ∧
      sample_uvc.streaming_intf < 256) ∧
    ∃ r oc os oe,
      uvc_copy_descriptors sample_uvc sample_statics USB_SPEED_HIGH (some (fun _ => 0))
        = some r ∧
      r.hdr[2]? = some (some oc) ∧
      r.hdr[5 + sample_uvc.desc.control.length]? = some (some os) ∧
      r.hdr[5 + sample_uvc.desc.control.length
          + (streaming_cls sample_uvc USB_SPEED_HIGH).length + 1]? = some (some oe) ∧
      r.hdr[5 + sample_uvc.desc.control.length
          + (streaming_cls sample_uvc USB_SPEED_HIGH).length + 2]? = some none ∧
      (blob r)[oc + VC_HEADER_bInCollection]? = some 1 ∧
      (blob r)[oc + VC_HEADER_baInterfaceNr]? = some sample_uvc.streaming_intf ∧
      (blob r)[os + VS_INPUT_HEADER_bEndpointAddress]?
        = some sample_statics.streaming_ep_bEndpointAddress ∧
      (blob r)[oe + EP_bEndpointAddress]?
        = some sample_statics.streaming_ep_bEndpointAddress :=
  ⟨⟨by decide, by decide, by decide⟩,
   back_references_patched sample_uvc sample_statics USB_SPEED_HIGH (fun _ => 0)
     (by decide) (by decide) (by decide)⟩

/-- C11. For every state (Disconnected, Connected, Streaming) one call of
`uvc_function_disable` queues exactly one event, of type Disconnect, and leaves the state
Disconnected; nothing else of the device or of its surroundings changes. -/
theorem disable_once (uvc : uvc_device) (w : uvc_world) :
    (uvc_function_disable uvc w).2.events = w.events ++ [zero_event UVC_EVENT_DISCONNECT] ∧
    (zero_event UVC_EVENT_DISCONNECT).type = UVC_EVENT_DISCONNECT ∧
    (uvc_function_disable uvc w).1.state = UVC_STATE_DISCONNECTED ∧
    (uvc_function_disable uvc w).1 = { uvc with state := UVC_STATE_DISCONNECTED } ∧
    (uvc_function_disable uvc w).2
      = { w with events := w.events ++ [zero_event UVC_EVENT_DISCONNECT] } := by
  simp [uvc_function_disable, v4l2_event_queue, zero_event]

/-- C12 (counterexample to the claim as stated). Two calls of `uvc_function_disable` in
a row on the sample device queue two Disconnect events, not one. -/
theorem disable_twice_emits_twice :
    (uvc_function_disable (uvc_function_disable sample_streaming sample_world).1
        (uvc_function_disable sample_streaming sample_world).2).2.events
      = [zero_event UVC_EVENT_DISCONNECT, zero_event UVC_EVENT_DISCONNECT] := by
  decide

/-- C12 (amended). For every starting state, two calls of `uvc_function_disable` in a
row queue exactly two Disconnect events, one per call, and end in Disconnected; the
function returns no value, so no error is reported, and nothing else of the device or of
its surroundings changes. -/
theorem disable_twice (uvc : uvc_device) (w : uvc_world) :
    (uvc_function_disable (uvc_function_disable uvc w).1 (uvc_function_disable uvc w).2).2
      = { w with events := w.events
            ++ [zero_event UVC_EVENT_DISCONNECT, zero_event UVC_EVENT_DISCONNECT] } ∧
    (uvc_function_disable (uvc_function_disable uvc w).1 (uvc_function_disable uvc w).2).1
      = { uvc with state := UVC_STATE_DISCONNECTED } := by
  simp [uvc_function_disable, v4l2_event_queue]

/-- C13 (the code at the failing input). From the initial state of the sample device
(Disconnected, streaming endpoint 1 bound and not enabled) the calls
`set_alt(control, 0)`, `set_alt(streaming, 1)`, `disable` leave the state Disconnected,
so that `uvc_function_get_alt` reports alternate 0 for the streaming interface, while the
last call made on the streaming endpoint is the `usb_ep_enable`: the endpoint is still
enabled. -/
theorem disable_leaves_endpoint_enabled :
    (uvc_run 64 (sample_uvc, sample_world)
        [uvc_call.set_alt 0 0, uvc_call.set_alt 1 1, uvc_call.disable]).1.state
      = UVC_STATE_DISCONNECTED ∧
    (uvc_function_get_alt
        (uvc_run 64 (sample_uvc, sample_world)
          [uvc_call.set_alt 0 0, uvc_call.set_alt 1 1, uvc_call.disable]).1
        (uvc_run 64 (sample_uvc, sample_world)
          [uvc_call.set_alt 0 0, uvc_call.set_alt 1 1, uvc_call.disable]).2 1).ret = 0 ∧
    (uvc_run 64 (sample_uvc, sample_world)
        [uvc_call.set_alt 0 0, uvc_call.set_alt 1 1, uvc_call.disable]).2.ep_ops
      = [usb_ep_op.enable 1 (uvc_streaming_ep sample_statics)] ∧
    ep_enabled
      (uvc_run 64 (sample_uvc, sample_world)
        [uvc_call.set_alt 0 0, uvc_call.set_alt 1 1, uvc_call.disable]).2.ep_ops 1
      = true := by
  decide

/-- C14. `uvc_function_setup` rejects a request exactly when its type bits
(`bRequestType & USB_TYPE_MASK`) are not `USB_TYPE_CLASS` or its `wLength` is strictly
greater than `UVC_MAX_REQUEST_SIZE`: then it returns `-EINVAL`, queues no event and
leaves the device and its surroundings as they are; in every other case it returns 0
(and queues an event), so `-EINVAL` with no event is returned if and only if the request
is of that kind. In particular a class request with `wLength` equal to
`UVC_MAX_REQUEST_SIZE` is accepted. -/
theorem setup_rejected (max : Nat) (uvc : uvc_device) (w : uvc_world)
    (ctrl : usb_ctrlrequest) :
    (if ctrl.bRequestType &&& USB_TYPE_MASK ≠ USB_TYPE_CLASS ∨ ctrl.wLength > max then
      uvc_function_setup max uvc w ctrl = { ret := -EINVAL, uvc := uvc, world := w }
    else
      (uvc_function_setup max uvc w ctrl).ret = 0 ∧
      (uvc_function_setup max uvc w ctrl).world.events ≠ w.events) ∧
    (((uvc_function_setup max uvc w ctrl).ret = -EINVAL ∧
        (uvc_function_setup max uvc w ctrl).world.events = w.events)
      ↔ (ctrl.bRequestType &&& USB_TYPE_MASK ≠ USB_TYPE_CLASS ∨ ctrl.wLength > max)) ∧
    (ctrl.bRequestType &&& USB_TYPE_MASK = USB_TYPE_CLASS →
      (uvc_function_setup max uvc w { ctrl with wLength := max }).ret = 0) := by
  have hcls : USB_TYPE_CLASS &&& USB_TYPE_MASK = USB_TYPE_CLASS := by decide
  by_cases h1 : ctrl.bRequestType &&& USB_TYPE_MASK = USB_TYPE_CLASS
  · by_cases h2 : ctrl.wLength > max
    · simp [uvc_function_setup, h1, h2, hcls]
    · simp [uvc_function_setup, h1, h2, hcls, v4l2_event_queue, EINVAL]
  · simp [uvc_function_setup, h1, hcls]

/-- C15. For every class-type request with `wLength` at most `UVC_MAX_REQUEST_SIZE`,
`uvc_function_setup` returns 0, leaves the device as it is and queues exactly one event:
its type is Setup, the member `req` holds byte for byte the 8 bytes of the setup packet,
and the other 56 bytes of the union are zero. The outcome does not depend on `bRequest`,
`wValue` or `wIndex`: with any other values of these three members the return value and
the device are the same and again exactly one event is queued. -/
theorem setup_accepted (max : Nat) (uvc : uvc_device) (w : uvc_world)
    (ctrl : usb_ctrlrequest)
    (hc : ctrl.bRequestType &&& USB_TYPE_MASK = USB_TYPE_CLASS)
    (hl : ctrl.wLength ≤ max) :
    (uvc_function_setup max uvc w ctrl).ret = 0 ∧
    (uvc_function_setup max uvc w ctrl).uvc = uvc ∧
    (∃ e, (uvc_function_setup max uvc w ctrl).world
        = { w with events := w.events ++ [e] } ∧
      e.type = UVC_EVENT_SETUP ∧ uvc_event_req e = ctrl.bytes ∧
      e.data.length = 64 ∧ e.data.drop 8 = List.replicate 56 0) ∧
    ∀ b v i : Nat,
      (uvc_function_setup max uvc w { ctrl with bRequest := b, wValue := v, wIndex := i }).ret
        = (uvc_function_setup max uvc w ctrl).ret ∧
      (uvc_function_setup max uvc w { ctrl with bRequest := b, wValue := v, wIndex := i }).uvc
        = (uvc_function_setup max uvc w ctrl).uvc ∧
      (uvc_function_setup max uvc w
          { ctrl with bRequest := b, wValue := v, wIndex := i }).world.events.length
        = w.events.length + 1 := by
  have hl2 : ¬ ctrl.wLength > max := by omega
  refine ⟨?_, ?_, ⟨setup_event ctrl, ?_, rfl, ?_, ?_, ?_⟩, ?_⟩
  · simp [uvc_function_setup, hc, hl2]
  · simp [uvc_function_setup, hc, hl2]
  · simp [uvc_function_setup, hc, hl2, v4l2_event_queue]
  · simp [uvc_event_req, setup_event, usb_ctrlrequest.bytes]
  · simp [setup_event, usb_ctrlrequest.bytes]
  · simp [setup_event, usb_ctrlrequest.bytes]
  · intro b v i
    simp [uvc_function_setup, hc, hl2, v4l2_event_queue]

/-- C15 at the sample request with `UVC_MAX_REQUEST_SIZE = 64`. -/
theorem setup_accepted_witness :
    (sample_ctrl.bRequestType &&& USB_TYPE_MASK = USB_TYPE_CLASS ∧ sample_ctrl.wLength ≤ 64) ∧
    ((uvc_function_setup 64 sample_connected sample_world sample_ctrl).ret = 0 ∧
    (uvc_function_setup 64 sample_connected sample_world sample_ctrl).uvc = sample_connected ∧
    (∃ e, (uvc_function_setup 64 sample_connected sample_world sample_ctrl).world
        = { sample_world with events := sample_world.events ++ [e] } ∧
      e.type = UVC_EVENT_SETUP ∧ uvc_event_req e = sample_ctrl.bytes ∧
      e.data.length = 64 ∧ e.data.drop 8 = List.replicate 56 0) ∧
    ∀ b v i : Nat,
      (uvc_function_setup 64 sample_connected sample_world
          { sample_ctrl with bRequest := b, wValue := v, wIndex := i }).ret
        = (uvc_function_setup 64 sample_connected sample_world sample_ctrl).ret ∧
      (uvc_function_setup 64 sample_connected sample_world
          { sample_ctrl with bRequest := b, wValue := v, wIndex := i }).uvc
        = (uvc_function_setup 64 sample_connected sample_world sample_ctrl).uvc ∧
      (uvc_function_setup 64 sample_connected sample_world
          { sample_ctrl with bRequest := b, wValue := v, wIndex := i }).world.events.length
        = sample_world.events.length + 1) :=
  ⟨⟨by decide, by decide⟩,
   setup_accepted 64 sample_connected sample_world sample_ctrl (by decide) (by decide)⟩

theorem memcpy_src_eq_take (src : List Nat) (n : Nat) (h : n ≤ src.length) :
    memcpy_src src n = src.take n := by
  apply List.ext_getElem?
  intro k
  simp only [memcpy_src, List.getElem?_map, List.getElem?_take]
  by_cases hk : k < n
  · rw [List.getElem?_range hk, if_pos hk]
    have hk2 : k < src.length := by omega
    simp [List.getD_eq_getElem?_getD, List.getElem?_eq_getElem hk2]
  · rw [if_neg hk]
    have : (List.range n)[k]? = none := by simp; omega
    rw [this]; rfl

theorem le32_value (v : Nat) :
    (le32 v).getD 0 0 + 256 * (le32 v).getD 1 0 + 65536 * (le32 v).getD 2 0
      + 16777216 * (le32 v).getD 3 0 = v % 2 ^ 32 := by
  simp only [le32, List.getD_cons_zero, List.getD_cons_succ]
  omega

theorem data_event_payload (req : usb_request) (h : req.actual ≤ UVC_EVENT_DATA_ROOM) :
    uvc_event_data_payload (data_event req) req.actual = memcpy_src req.buf req.actual ∧
    (data_event req).overrun = [] ∧
    (data_event req).data.length = 64 := by
  have hl : (memcpy_src req.buf req.actual).length = req.actual := length_memcpy_src _ _
  have ht : (memcpy_src req.buf req.actual).take UVC_EVENT_DATA_ROOM
      = memcpy_src req.buf req.actual := List.take_of_length_le (by rw [hl]; exact h)
  refine ⟨?_, ?_, ?_⟩
  · simp only [uvc_event_data_payload, data_event, ht]
    simp [le32, hl]
  · simp only [data_event]
    exact List.drop_of_length_le (by rw [hl]; exact h)
  · have h2 : req.actual ≤ 60 := h
    simp only [data_event, ht, List.length_append, List.length_replicate, hl]
    simp only [le32, List.length_cons, List.length_nil, UVC_EVENT_DATA_ROOM]
    omega

theorem ep0_complete_result (uvc : uvc_device) (w : uvc_world) (req req2 : usb_request) :
    (if uvc.event_setup_out ≠ 0 then
      (uvc_function_ep0_complete uvc w req).1 = { uvc with event_setup_out := 0 } ∧
      ∃ e, (uvc_function_ep0_complete uvc w req).2 = { w with events := w.events ++ [e] } ∧
        e.type = UVC_EVENT_DATA ∧
        uvc_event_data_length e = req.actual % 2 ^ 32 ∧
        (req.actual ≤ UVC_EVENT_DATA_ROOM →
          e.overrun = [] ∧
          uvc_event_data_payload e req.actual = memcpy_src req.buf req.actual ∧
          (req.actual ≤ req.buf.length →
            uvc_event_data_payload e req.actual = req.buf.take req.actual))
    else
      uvc_function_ep0_complete uvc w req = (uvc, w)) ∧
    (((uvc_function_ep0_complete uvc w req).2.events ≠ w.events) ↔ uvc.event_setup_out ≠ 0) ∧
    (uvc_function_ep0_complete (uvc_function_ep0_complete uvc w req).1
        (uvc_function_ep0_complete uvc w req).2 req2).2.events.length
      ≤ w.events.length + 1 := by
  by_cases h : uvc.event_setup_out = 0
  · simp [uvc_function_ep0_complete, h]
  · refine ⟨?_, ?_, ?_⟩
    · rw [if_pos h]
      refine ⟨by simp [uvc_function_ep0_complete, h], data_event req,
        by simp [uvc_function_ep0_complete, h, v4l2_event_queue], rfl, ?_, ?_⟩
      · have := le32_value req.actual
        simpa [uvc_event_data_length, data_event, le32] using this
      · intro hr
        obtain ⟨h1, h2, -⟩ := data_event_payload req hr
        refine ⟨h2, h1, fun hle => ?_⟩
        rw [h1, memcpy_src_eq_take _ _ hle]
    · simp [uvc_function_ep0_complete, h, v4l2_event_queue]
    · simp [uvc_function_ep0_complete, h, v4l2_event_queue]

/-- C16 (the code at the failing input). A class request with `wLength = 64` is accepted
by `uvc_function_setup` when `UVC_MAX_REQUEST_SIZE` is 64. With the flag
`event_setup_out` set and its data stage completed with 64 bytes (the bytes 1 to 64),
`uvc_function_ep0_complete` clears the flag and queues one Data event whose member
`length` is 64, but the `memcpy` of 64 bytes to offset 4 of the 64-byte union runs 4
bytes over its end: the bytes 61 to 64 are stored behind the union, and the payload in
the event is the first 60 bytes of the buffer, not the first 64. -/
theorem ep0_complete_overruns_event :
    (uvc_function_setup 64 sample_connected sample_world
      { sample_ctrl with wLength := 64 }).ret = 0 ∧
    ∃ e, uvc_function_ep0_complete sample_setup_out sample_world long_req
        = ({ sample_setup_out with event_setup_out := 0 },
           { sample_world with events := [e] }) ∧
      e.type = UVC_EVENT_DATA ∧
      uvc_event_data_length e = 64 ∧
      long_req.actual = 64 ∧
      long_req.buf.length = 64 ∧
      e.data.length = 64 ∧
      e.overrun = [61, 62, 63, 64] ∧
      uvc_event_data_payload e long_req.actual = long_req.buf.take 60 ∧
      uvc_event_data_payload e long_req.actual ≠ long_req.buf.take long_req.actual :=
  ⟨by decide, data_event long_req, by decide, by decide, by decide, by decide, by decide,
    by decide, by decide, by decide, by decide⟩

/-- C17 (the code at the failing input). On a dual-speed gadget, with `kzalloc`
succeeding, a NULL control chain makes `uvc_bind_config` free the instance, hand no
function to `usb_add_function`, and return 0, the initial value of `ret`. -/
theorem bind_config_null_control_returns_zero :
    uvc_bind_config true true none
        (some sample_uvc.desc.fs_streaming) (some sample_uvc.desc.hs_streaming)
        1 2 3 0 uvc_statics_init uvc_string_ids_init
      = { ret := 0, statics := uvc_statics_init, strings := uvc_string_ids_init,
          func := none, add_ret := none, freed := true } := by
  decide

/-- C19 (the code at the failing input). On a dual-speed gadget, with a valid catalog and
three successful calls of `usb_string_id`, a call of `usb_add_function` that fails with
`-ENOMEM` makes `uvc_bind_config` free the instance and return 0. A failing call of
`usb_string_id` makes it return the negative value of that call. -/
theorem bind_config_add_failure_returns_zero :
    (uvc_bind_config true true (some sample_uvc.desc.control)
        (some sample_uvc.desc.fs_streaming) (some sample_uvc.desc.hs_streaming)
        1 2 3 (-ENOMEM) uvc_statics_init uvc_string_ids_init).ret = 0 ∧
    (uvc_bind_config true true (some sample_uvc.desc.control)
        (some sample_uvc.desc.fs_streaming) (some sample_uvc.desc.hs_streaming)
        1 2 3 (-ENOMEM) uvc_statics_init uvc_string_ids_init).add_ret = some (-ENOMEM) ∧
    (uvc_bind_config true true (some sample_uvc.desc.control)
        (some sample_uvc.desc.fs_streaming) (some sample_uvc.desc.hs_streaming)
        1 2 3 (-ENOMEM) uvc_statics_init uvc_string_ids_init).freed = true ∧
    (uvc_bind_config true true (some sample_uvc.desc.control)
        (some sample_uvc.desc.fs_streaming) (some sample_uvc.desc.hs_streaming)
        1 (-19) 3 0 uvc_statics_init uvc_string_ids_init).ret = -19 := by
  decide

/-- C20 (the code at the failing input). When the `kmalloc` inside
`uvc_copy_descriptors(uvc, USB_SPEED_FULL)` fails and every other call succeeds,
`uvc_function_bind` returns 0 and releases nothing: `f->descriptors` is NULL and
`f->hs_descriptors` holds the high-speed set. -/
theorem bind_ignores_composition_failure :
    (uvc_function_bind sample_function { sample_bind_calls with fs_heap := none }).1 = 0 ∧
    (uvc_function_bind sample_function
        { sample_bind_calls with fs_heap := none }).2.descriptors.isNone = true ∧
    (uvc_function_bind sample_function
        { sample_bind_calls with fs_heap := none }).2.hs_descriptors.isSome = true ∧
    (uvc_function_bind sample_function
        { sample_bind_calls with fs_heap := none }).2.released = [] := by
  refine ⟨?_, ?_, ?_, ?_⟩ <;> rfl

theorem wTotalLength_mod (uvc : uvc_device) (g : uvc_statics)
    (speed : usb_device_speed) (m : Nat → Nat)
    (hc : 13 ≤ first_bLength uvc.desc.control)
    (hs : 13 ≤ first_bLength (streaming_cls uvc speed)) :
    ∃ r, uvc_copy_descriptors uvc g speed (some m) = some r ∧
      r.hdr[2]? = some (some 17) ∧
      r.hdr[5 + uvc.desc.control.length]? = some (some (38 + chain_size uvc.desc.control)) ∧
      read_le16 (blob r) (17 + VC_HEADER_wTotalLength)
        = some (chain_size uvc.desc.control % 65536) ∧
      read_le16 (blob r) (38 + chain_size uvc.desc.control + VS_INPUT_HEADER_wTotalLength)
        = some (chain_size (streaming_cls uvc speed) % 65536) := by
  obtain ⟨r, hr, -, -, hhdr, -, hblob, -⟩ := uvc_copy_descriptors_spec uvc g speed m
  have hc2 := first_bLength_le uvc.desc.control
  have hs2 := first_bLength_le (streaming_cls uvc speed)
  obtain ⟨c22, c23, -, -⟩ := blob_spec_control_fields uvc g speed (by omega)
  obtain ⟨s4, s5, -⟩ := blob_spec_streaming_fields uvc g speed (by omega)
  have hmod : ∀ v : Nat, u32 v % 65536 % 256 + 256 * (u32 v % 65536 / 256) = v % 65536 := by
    intro v
    have : u32 v % 65536 = v % 65536 := by
      simp only [u32]; omega
    rw [this]; omega
  refine ⟨r, hr, ?_, ?_, ?_, ?_⟩
  · rw [hhdr]; exact hdr_spec_control_header uvc g speed (by omega)
  · rw [hhdr]; exact hdr_spec_streaming_header uvc g speed (by omega)
  · rw [hblob]
    show read_le16 _ 22 = _
    simp only [read_le16, c22, c23, hmod]
  · rw [hblob]
    simp only [read_le16, VS_INPUT_HEADER_wTotalLength, s4, s5, hmod]

/-- C18 (counterexample to the claim as stated). With a control chain of 76513 bytes
`uvc_copy_descriptors` produces a descriptor set all the same, and the `wTotalLength` of
its control header holds 10977, the sum reduced modulo 65536. -/
theorem long_chain_is_truncated :
    65535 < chain_size long_uvc.desc.control ∧
    ∃ r, uvc_copy_descriptors long_uvc sample_statics USB_SPEED_FULL (some (fun _ => 0))
        = some r ∧
      r.hdr[2]? = some (some 17) ∧
      read_le16 (blob r) (17 + VC_HEADER_wTotalLength) = some 10977 := by
  have hcs : chain_size long_uvc.desc.control = 76513 := by
    show chain_size (sample_control_header :: List.replicate 300 wide_record) = _
    rw [chain_size_cons, chain_size_replicate]
    rfl
  obtain ⟨r, hr, h2, -, hw, -⟩ :=
    wTotalLength_mod long_uvc sample_statics USB_SPEED_FULL (fun _ => 0)
      (by decide) (by decide)
  refine ⟨by rw [hcs]; decide, r, hr, h2, ?_⟩
  rw [hw, hcs]

/-- C18 (amended). `uvc_copy_descriptors` makes no overflow check: it fails only when
`kmalloc` returns NULL, and for every catalog with full-size chain headers, whatever the
sums of `bLength` over the two chains, it produces a descriptor set in which the
`wTotalLength` of the control header and of the streaming input header hold the sum over
their chain reduced modulo 65536 (the low 16 bits). -/
theorem wTotalLength_low_16_bits (uvc : uvc_device) (g : uvc_statics)
    (speed : usb_device_speed) (m : Nat → Nat)
    (hc : UVC_DT_HEADER_SIZE 1 ≤ first_bLength uvc.desc.control)
    (hs : UVC_DT_INPUT_HEADER_SIZE 0 0 ≤ first_bLength (streaming_cls uvc speed)) :
    uvc_copy_descriptors uvc g speed none = none ∧
    ∃ r oc os, uvc_copy_descriptors uvc g speed (some m) = some r ∧
      r.hdr[2]? = some (some oc) ∧
      r.hdr[5 + uvc.desc.control.length]? = some (some os) ∧
      read_le16 (blob r) (oc + VC_HEADER_wTotalLength)
        = some (chain_size uvc.desc.control % 65536) ∧
      read_le16 (blob r) (os + VS_INPUT_HEADER_wTotalLength)
        = some (chain_size (streaming_cls uvc speed) % 65536) := by
  obtain ⟨r, hr, h2, h5, hw, hv⟩ := wTotalLength_mod uvc g speed m hc hs
  exact ⟨rfl, r, 17, 38 + chain_size uvc.desc.control, hr, h2, h5, hw, hv⟩

/-- C18 (amended) at the device with the long control chain, full speed. -/
theorem wTotalLength_low_16_bits_witness :
    (UVC_DT_HEADER_SIZE 1 ≤ first_bLength long_uvc.desc.control ∧
      UVC_DT_INPUT_HEADER_SIZE 0 0 ≤ first_bLength (streaming_cls long_uvc USB_SPEED_FULL)) ∧
    (uvc_copy_descriptors long_uvc sample_statics USB_SPEED_FULL none = none ∧
    ∃ r oc os,
      uvc_copy_descriptors long_uvc sample_statics USB_SPEED_FULL (some (fun _ => 0))
        = some r ∧
      r.hdr[2]? = some (some oc) ∧
      r.hdr[5 + long_uvc.desc.control.length]? = some (some os) ∧
      read_le16 (blob r) (oc + VC_HEADER_wTotalLength)
        = some (chain_size long_uvc.desc.control % 65536) ∧
      read_le16 (blob r) (os + VS_INPUT_HEADER_wTotalLength)
        = some (chain_size (streaming_cls long_uvc USB_SPEED_FULL) % 65536)) :=
  ⟨⟨by decide, by decide⟩,
   wTotalLength_low_16_bits long_uvc sample_statics USB_SPEED_FULL (fun _ => 0)
     (by decide) (by decide)⟩

theorem bind_config_validation_failure (control fs_streaming hs_streaming :
      Option (List Descriptor)) (id1 id2 id3 add : Int) (g : uvc_statics)
    (t : uvc_string_ids)
    (h : chain_rejected control UVC_VC_HEADER = true
      ∨ chain_rejected fs_streaming UVC_VS_INPUT_HEADER = true
      ∨ chain_rejected hs_streaming UVC_VS_INPUT_HEADER = true) :
    uvc_bind_config true true control fs_streaming hs_streaming id1 id2 id3 add g t
      = { ret := 0, statics := g, strings := t, func := none, add_ret := none,
          freed := true } := by
  unfold uvc_bind_config
  by_cases h1 : chain_rejected control UVC_VC_HEADER = true
  · simp [h1]
  · by_cases h2 : chain_rejected fs_streaming UVC_VS_INPUT_HEADER = true
    · simp [h1, h2]
    · have h3 : chain_rejected hs_streaming UVC_VS_INPUT_HEADER = true := by
        rcases h with h | h | h
        · exact absurd h h1
        · exact absurd h h2
        · exact h
      simp [h1, h2, h3]

theorem bind_config_add_result (control fs_streaming hs_streaming :
      Option (List Descriptor)) (id1 id2 id3 add : Int) (g : uvc_statics)
    (t : uvc_string_ids)
    (h1 : chain_rejected control UVC_VC_HEADER = false)
    (h2 : chain_rejected fs_streaming UVC_VS_INPUT_HEADER = false)
    (h3 : chain_rejected hs_streaming UVC_VS_INPUT_HEADER = false)
    (i1 : 0 ≤ id1) (i2 : 0 ≤ id2) (i3 : 0 ≤ id3) :
    (uvc_bind_config true true control fs_streaming hs_streaming id1 id2 id3 add g t).ret
      = 0 := by
  unfold uvc_bind_config
  simp [h1, h2, h3, not_lt.2 i1, not_lt.2 i2, not_lt.2 i3]

theorem bind_return_ignores_composition (f : uvc_function) (o : bind_calls)
    (h1 h2 : Option (Nat → Nat)) :
    (uvc_function_bind f { o with fs_heap := h1, hs_heap := h2 }).1
      = (uvc_function_bind f o).1 := by
  unfold uvc_function_bind
  cases o.control_ep with
  | none => rfl
  | some c =>
    cases o.streaming_ep with
    | none => rfl
    | some s =>
      cases hv : o.video with
      | none => simp only [uvc_register_video, hv]; split_ifs <;> rfl
      | some v => simp only [uvc_register_video, hv]; split_ifs <;> rfl

theorem ep_enabled_append (ops : List usb_ep_op) (op : usb_ep_op) (ep : Nat) :
    ep_enabled (ops ++ [op]) ep =
      match op with
      | usb_ep_op.enable e _ => if e = ep then true else ep_enabled ops ep
      | usb_ep_op.disable e => if e = ep then false else ep_enabled ops ep := by
  simp only [ep_enabled, List.foldl_append, List.foldl_cons, List.foldl_nil]

theorem endpoint_invariant_step (max : Nat) (s : uvc_device × uvc_world) (e : Nat)
    (c : uvc_call) (he : s.1.video.ep = some e)
    (hinv : ep_enabled s.2.ep_ops e = true ↔ s.1.state = UVC_STATE_STREAMING)
    (hc : c ≠ uvc_call.disable) :
    (uvc_step max s c).1.video.ep = some e ∧
    (ep_enabled (uvc_step max s c).2.ep_ops e = true
      ↔ (uvc_step max s c).1.state = UVC_STATE_STREAMING) := by
  obtain ⟨uvc, w⟩ := s
  simp only at he hinv
  cases c with
  | disable => exact absurd rfl hc
  | get_alt i =>
    simp only [uvc_step, uvc_function_get_alt]
    split_ifs <;> exact ⟨he, hinv⟩
  | setup ctrl =>
    simp only [uvc_step, uvc_function_setup]
    split_ifs <;> exact ⟨he, hinv⟩
  | ep0_complete req =>
    simp only [uvc_step, uvc_function_ep0_complete]
    split_ifs <;> exact ⟨he, hinv⟩
  | set_alt i alt =>
    by_cases h1 : i = uvc.control_intf
    · by_cases h2 : alt = 0
      · cases hs : uvc.state <;>
          simp [uvc_step, uvc_function_set_alt, h1, h2, hs, v4l2_event_queue, he] <;>
          simpa [hs] using hinv
      · simp [uvc_step, uvc_function_set_alt, h1, h2, he, hinv]
    · by_cases h4 : i = uvc.streaming_intf
      · subst h4
        match alt with
        | 0 =>
          cases hs : uvc.state <;>
            simp [uvc_step, uvc_function_set_alt, h1, hs, v4l2_event_queue, he,
              usb_ep_disable_if, ep_enabled_append] <;>
            simpa [hs] using hinv
        | 1 =>
          cases hs : uvc.state <;>
            simp [uvc_step, uvc_function_set_alt, h1, hs, v4l2_event_queue, he,
              usb_ep_enable_if, ep_enabled_append] <;>
            simpa [hs] using hinv
        | n + 2 => simp [uvc_step, uvc_function_set_alt, h1, he, hinv]
      · simp [uvc_step, uvc_function_set_alt, h1, h4, he, hinv]

theorem endpoint_invariant_without_disable (max : Nat) (calls : List uvc_call)
    (s : uvc_device × uvc_world) (e : Nat) (he : s.1.video.ep = some e)
    (hinv : ep_enabled s.2.ep_ops e = true ↔ s.1.state = UVC_STATE_STREAMING)
    (hc : uvc_call.disable ∉ calls) :
    (uvc_run max s calls).1.video.ep = some e ∧
    (ep_enabled (uvc_run max s calls).2.ep_ops e = true
      ↔ (uvc_run max s calls).1.state = UVC_STATE_STREAMING) := by
  induction calls generalizing s with
  | nil => exact ⟨he, hinv⟩
  | cons c t ih =>
    have hcd : c ≠ uvc_call.disable := fun h => hc (h ▸ List.mem_cons_self _ _)
    obtain ⟨h1, h2⟩ := endpoint_invariant_step max s e c he hinv hcd
    exact ih (uvc_step max s c) h1 h2 (fun h => hc (List.mem_cons_of_mem _ h))

/-- C21. For every catalog whose full-speed and high-speed streaming chains are the same
list of records, for the same file-scope descriptors and interface numbers, and whatever
the two blocks `kmalloc` hands out: the descriptor sets that `uvc_copy_descriptors`
composes for `USB_SPEED_FULL` and `USB_SPEED_HIGH` have the same byte length, the same
record count and the same index, and their blobs agree on every byte. This covers the
bytes outside the patched fields of the streaming input header and outside the trailing
streaming endpoint descriptor; the two blobs agree on those fields as well, since
`uvc_fs_streaming` and `uvc_hs_streaming` hold the same two descriptors. -/
theorem speeds_agree_on_identical_chains (uvc : uvc_device) (g : uvc_statics)
    (m1 m2 : Nat → Nat) (h : uvc.desc.fs_streaming = uvc.desc.hs_streaming) :
    ∃ rf rh,
      uvc_copy_descriptors uvc g USB_SPEED_FULL (some m1) = some rf ∧
      uvc_copy_descriptors uvc g USB_SPEED_HIGH (some m2) = some rh ∧
      (blob rf).length = (blob rh).length ∧
      rf.len = rh.len ∧
      rf.n_desc = rh.n_desc ∧
      rf.hdr = rh.hdr ∧
      (∀ k : Nat, (blob rf)[k]? = (blob rh)[k]?) ∧
      blob rf = blob rh := by
  obtain ⟨rf, hrf, hnf, -, hhf, hlf, hbf, -⟩ :=
    uvc_copy_descriptors_spec uvc g USB_SPEED_FULL m1
  obtain ⟨rh, hrh, hnh, -, hhh, hlh, hbh, -⟩ :=
    uvc_copy_descriptors_spec uvc g USB_SPEED_HIGH m2
  have e : streaming_cls uvc USB_SPEED_HIGH = streaming_cls uvc USB_SPEED_FULL := by
    simp [streaming_cls, h]
  have el : layout uvc g USB_SPEED_HIGH = layout uvc g USB_SPEED_FULL := by
    simp only [layout, e]
  have eb : blob_spec uvc g USB_SPEED_HIGH = blob_spec uvc g USB_SPEED_FULL := by
    simp only [blob_spec, e, streaming_std_eq]
  have hb : blob rf = blob rh := by rw [hbf, hbh, eb]
  exact ⟨rf, rh, hrf, hrh, by rw [hb], by rw [hlf, hlh, el], by rw [hnf, hnh, e],
    by rw [hhf, hhh, el], fun k => by rw [hb], hb⟩

/-- C21 at the sample catalog, with two blocks of different contents. -/
theorem speeds_agree_on_identical_chains_witness :
    sample_uvc.desc.fs_streaming = sample_uvc.desc.hs_streaming ∧
    ∃ rf rh,
      uvc_copy_descriptors sample_uvc sample_statics USB_SPEED_FULL (some (fun _ => 0))
        = some rf ∧
      uvc_copy_descriptors sample_uvc sample_statics USB_SPEED_HIGH (some (fun _ => 255))
        = some rh ∧
      (blob rf).length = (blob rh).length ∧
      rf.len = rh.len ∧
      rf.n_desc = rh.n_desc ∧
      rf.hdr = rh.hdr ∧
      (∀ k : Nat, (blob rf)[k]? = (blob rh)[k]?) ∧
      blob rf = blob rh :=
  ⟨by decide,
   speeds_agree_on_identical_chains sample_uvc sample_statics (fun _ => 0) (fun _ => 255)
     (by decide)⟩

/-- C22. From state Disconnected, with a streaming interface number different from the
control interface number, the calls `set_alt(control interface, 0)`,
`set_alt(streaming interface, 1)`, `set_alt(streaming interface, 0)` made one after the
other return 0 each, queue exactly three events, of types Connect, StreamOn and StreamOff
in this order (the Connect event carrying the gadget speed), and leave the device in state
Connected with nothing else changed. This holds whether or not a streaming endpoint is
bound. -/
theorem connect_streamon_streamoff (uvc : uvc_device) (w : uvc_world)
    (hs : uvc.state = UVC_STATE_DISCONNECTED) (hi : uvc.streaming_intf ≠ uvc.control_intf) :
    ∃ r1 r2 r3,
      r1 = uvc_function_set_alt uvc w uvc.control_intf 0 ∧
      r2 = uvc_function_set_alt r1.uvc r1.world uvc.streaming_intf 1 ∧
      r3 = uvc_function_set_alt r2.uvc r2.world uvc.streaming_intf 0 ∧
      r1.ret = 0 ∧ r2.ret = 0 ∧ r3.ret = 0 ∧
      r3.world.events = w.events ++ [connect_event w.speed, zero_event UVC_EVENT_STREAMON,
        zero_event UVC_EVENT_STREAMOFF] ∧
      r3.world.events.map v4l2_event.type = w.events.map v4l2_event.type
        ++ [UVC_EVENT_CONNECT, UVC_EVENT_STREAMON, UVC_EVENT_STREAMOFF] ∧
      r1.uvc.state = UVC_STATE_CONNECTED ∧
      r2.uvc.state = UVC_STATE_STREAMING ∧
      r3.uvc.state = UVC_STATE_CONNECTED ∧
      r3.uvc = { uvc with state := UVC_STATE_CONNECTED } := by
  refine ⟨_, _, _, rfl, rfl, rfl, ?_⟩
  cases he : uvc.video.ep <;>
    simp [uvc_function_set_alt, hs, hi, he, v4l2_event_queue, usb_ep_enable_if,
      usb_ep_disable_if, connect_event, zero_event]

/-- C22 at the sample device: the event list starts empty and ends as
[Connect, StreamOn, StreamOff]. -/
theorem connect_streamon_streamoff_witness :
    (sample_uvc.state = UVC_STATE_DISCONNECTED ∧
      sample_uvc.streaming_intf ≠ sample_uvc.control_intf) ∧
    ∃ r1 r2 r3,
      r1 = uvc_function_set_alt sample_uvc sample_world sample_uvc.control_intf 0 ∧
      r2 = uvc_function_set_alt r1.uvc r1.world sample_uvc.streaming_intf 1 ∧
      r3 = uvc_function_set_alt r2.uvc r2.world sample_uvc.streaming_intf 0 ∧
      r1.ret = 0 ∧ r2.ret = 0 ∧ r3.ret = 0 ∧
      r3.world.events = sample_world.events ++ [connect_event sample_world.speed,
        zero_event UVC_EVENT_STREAMON, zero_event UVC_EVENT_STREAMOFF] ∧
      r3.world.events.map v4l2_event.type = sample_world.events.map v4l2_event.type
        ++ [UVC_EVENT_CONNECT, UVC_EVENT_STREAMON, UVC_EVENT_STREAMOFF] ∧
      r1.uvc.state = UVC_STATE_CONNECTED ∧
      r2.uvc.state = UVC_STATE_STREAMING ∧
      r3.uvc.state = UVC_STATE_CONNECTED ∧
      r3.uvc = { sample_uvc with state := UVC_STATE_CONNECTED } :=
  ⟨⟨by decide, by decide⟩,
   connect_streamon_streamoff sample_uvc sample_world (by decide) (by decide)⟩

/-- C23 (counterexample to the claim as stated). The control chain `short_header`,
`sample_output_terminal` passes the descriptor validation of `uvc_bind_config` (its first
record has subtype `UVC_VC_HEADER`) and the function is registered with it, but its first
record is 3 bytes long: it is copied to offsets 17..19 and the output terminal to offsets
20..28 (index entries 2 and 3). The store into `wTotalLength` of the control header goes
to offsets 22 and 23 and the store into `bInCollection` to offset 28, all inside the
copy of the output terminal, whose `bDescriptorSubType` (3 in the source record) reads 12
in the final blob. -/
theorem patch_alters_second_record :
    chain_rejected (some short_uvc.desc.control) UVC_VC_HEADER = false ∧
    chain_rejected (some short_uvc.desc.fs_streaming) UVC_VS_INPUT_HEADER = false ∧
    chain_rejected (some short_uvc.desc.hs_streaming) UVC_VS_INPUT_HEADER = false ∧
    (uvc_bind_config true true (some short_uvc.desc.control)
        (some short_uvc.desc.fs_streaming) (some short_uvc.desc.hs_streaming) 1 2 3 0
        uvc_statics_init uvc_string_ids_init).func
      = some { uvc_device_zero with desc := short_uvc.desc } ∧
    first_bLength short_uvc.desc.control = 3 ∧
    short_uvc.desc.control[1]? = some sample_output_terminal ∧
    bDescriptorSubType sample_output_terminal = 3 ∧
    ∃ r, uvc_copy_descriptors short_uvc sample_statics USB_SPEED_FULL (some (fun _ => 0))
        = some r ∧
      r.hdr[2]? = some (some 17) ∧
      r.hdr[3]? = some (some 20) ∧
      r.hdr[4]? = some (some 29) ∧
      (blob r)[20 + 2]? = some 12 ∧
      (blob r)[17 + VC_HEADER_wTotalLength]? = some 12 ∧
      (blob r)[17 + VC_HEADER_wTotalLength + 1]? = some 0 ∧
      (blob r)[17 + VC_HEADER_bInCollection]? = some 1 := by
  obtain ⟨r, hr, -, -, hhdr, -, hblob, -⟩ :=
    uvc_copy_descriptors_spec short_uvc sample_statics USB_SPEED_FULL (fun _ => 0)
  refine ⟨by decide, by decide, by decide, by decide, by decide, by decide, by decide,
    r, hr, ?_, ?_, ?_, ?_, ?_, ?_, ?_⟩
  · rw [hhdr]; decide
  · rw [hhdr]; decide
  · rw [hhdr]; decide
  · rw [hblob, getElem?_blob_spec, if_neg (by decide), if_neg (by decide),
      if_neg (by decide), if_neg (by decide), if_neg (by decide), if_neg (by decide),
      if_pos (by decide)]
    decide
  · rw [hblob, getElem?_blob_spec, if_neg (by decide), if_neg (by decide),
      if_neg (by decide), if_neg (by decide), if_neg (by decide), if_neg (by decide),
      if_pos (by decide)]
    decide
  · rw [hblob, getElem?_blob_spec, if_neg (by decide), if_neg (by decide),
      if_neg (by decide), if_neg (by decide), if_neg (by decide), if_pos (by decide)]
    decide
  · rw [hblob, getElem?_blob_spec, if_neg (by decide), if_neg (by decide),
      if_neg (by decide), if_neg (by decide), if_pos (by decide)]

/-- C23 (amended). The descriptor validation of `uvc_bind_config` does not look at
`bLength`. For every catalog whose first control record is at least 13 bytes long (it
holds `baInterfaceNr[0]`) and whose first record of the speed-selected streaming chain is
at least 7 bytes long (it holds `bEndpointAddress`): every byte that
`uvc_copy_descriptors` stores through `uvc_control_header` and `uvc_streaming_header`
lies inside the copy of the first record of its chain (behind index entries 2 and
`5 + |control|`), and every byte of the blob outside these two records is the byte of
the source records copied back to back, so no patch alters a byte of another record. -/
theorem patches_inside_first_record (uvc : uvc_device) (g : uvc_statics)
    (speed : usb_device_speed) (m : Nat → Nat)
    (hc : VC_HEADER_baInterfaceNr + 1 ≤ first_bLength uvc.desc.control)
    (hs : VS_INPUT_HEADER_bEndpointAddress + 1 ≤ first_bLength (streaming_cls uvc speed)) :
    ∃ r oc os, uvc_copy_descriptors uvc g speed (some m) = some r ∧
      r.hdr[2]? = some (some oc) ∧
      r.hdr[5 + uvc.desc.control.length]? = some (some os) ∧
      (∀ k ∈ [oc + VC_HEADER_wTotalLength, oc + VC_HEADER_wTotalLength + 1,
          oc + VC_HEADER_bInCollection, oc + VC_HEADER_baInterfaceNr],
        oc ≤ k ∧ k < oc + first_bLength uvc.desc.control) ∧
      (∀ k ∈ [os + VS_INPUT_HEADER_wTotalLength, os + VS_INPUT_HEADER_wTotalLength + 1,
          os + VS_INPUT_HEADER_bEndpointAddress],
        os ≤ k ∧ k < os + first_bLength (streaming_cls uvc speed)) ∧
      patched_offsets uvc = [oc + VC_HEADER_wTotalLength, oc + VC_HEADER_wTotalLength + 1,
          oc + VC_HEADER_bInCollection, oc + VC_HEADER_baInterfaceNr,
          os + VS_INPUT_HEADER_wTotalLength, os + VS_INPUT_HEADER_wTotalLength + 1,
          os + VS_INPUT_HEADER_bEndpointAddress] ∧
      (∀ k : Nat, ¬ (oc ≤ k ∧ k < oc + first_bLength uvc.desc.control) →
        ¬ (os ≤ k ∧ k < os + first_bLength (streaming_cls uvc speed)) →
        (blob r)[k]? = (chain_bytes (layout uvc g speed))[k]?) := by
  obtain ⟨r, hr, -, -, hhdr, -, hblob, -⟩ := uvc_copy_descriptors_spec uvc g speed m
  have hc1 : 13 ≤ first_bLength uvc.desc.control := hc
  have hs1 : 7 ≤ first_bLength (streaming_cls uvc speed) := hs
  refine ⟨r, 17, 38 + chain_size uvc.desc.control, hr, ?_, ?_, ?_, ?_, rfl, ?_⟩
  · rw [hhdr]; exact hdr_spec_control_header uvc g speed (by omega)
  · rw [hhdr]; exact hdr_spec_streaming_header uvc g speed (by omega)
  · intro k hk
    simp only [List.mem_cons, List.mem_singleton, List.not_mem_nil, or_false,
      VC_HEADER_wTotalLength, VC_HEADER_bInCollection, VC_HEADER_baInterfaceNr] at hk
    omega
  · intro k hk
    simp only [List.mem_cons, List.mem_singleton, List.not_mem_nil, or_false,
      VS_INPUT_HEADER_wTotalLength, VS_INPUT_HEADER_bEndpointAddress] at hk
    omega
  · intro k h1 h2
    rw [hblob, getElem?_blob_spec]
    rw [if_neg (by omega), if_neg (by omega), if_neg (by omega), if_neg (by omega),
      if_neg (by omega), if_neg (by omega), if_neg (by omega)]

/-- C23 (amended) at the sample catalog, high speed. -/
theorem patches_inside_first_record_witness :
    (VC_HEADER_baInterfaceNr + 1 ≤ first_bLength sample_uvc.desc.control ∧
      VS_INPUT_HEADER_bEndpointAddress + 1
        ≤ first_bLength (streaming_cls sample_uvc USB_SPEED_HIGH)) ∧
    ∃ r oc os,
      uvc_copy_descriptors sample_uvc sample_statics USB_SPEED_HIGH (some (fun _ => 0))
        = some r ∧
      r.hdr[2]? = some (some oc) ∧
      r.hdr[5 + sample_uvc.desc.control.length]? = some (some os) ∧
      (∀ k ∈ [oc + VC_HEADER_wTotalLength, oc + VC_HEADER_wTotalLength + 1,
          oc + VC_HEADER_bInCollection, oc + VC_HEADER_baInterfaceNr],
        oc ≤ k ∧ k < oc + first_bLength sample_uvc.desc.control) ∧
      (∀ k ∈ [os + VS_INPUT_HEADER_wTotalLength, os + VS_INPUT_HEADER_wTotalLength + 1,
          os + VS_INPUT_HEADER_bEndpointAddress],
        os ≤ k ∧ k < os + first_bLength (streaming_cls sample_uvc USB_SPEED_HIGH)) ∧
      patched_offsets sample_uvc = [oc + VC_HEADER_wTotalLength,
          oc + VC_HEADER_wTotalLength + 1,
          oc + VC_HEADER_bInCollection, oc + VC_HEADER_baInterfaceNr,
          os + VS_INPUT_HEADER_wTotalLength, os + VS_INPUT_HEADER_wTotalLength + 1,
          os + VS_INPUT_HEADER_bEndpointAddress] ∧
      (∀ k : Nat, ¬ (oc ≤ k ∧ k < oc + first_bLength sample_uvc.desc.control) →
        ¬ (os ≤ k ∧ k < os + first_bLength (streaming_cls sample_uvc USB_SPEED_HIGH)) →
        (blob r)[k]? = (chain_bytes (layout sample_uvc sample_statics USB_SPEED_HIGH))[k]?) :=
  ⟨⟨by decide, by decide⟩,
   patches_inside_first_record sample_uvc sample_statics USB_SPEED_HIGH (fun _ => 0)
     (by decide) (by decide)⟩

theorem bind_config_initial_state (dualspeed kzalloc_ok : Bool)
    (control fs_streaming hs_streaming : Option (List Descriptor))
    (id1 id2 id3 add : Int) (g : uvc_statics) (t : uvc_string_ids) (u : uvc_device)
    (h : (uvc_bind_config dualspeed kzalloc_ok control fs_streaming hs_streaming
      id1 id2 id3 add g t).func = some u) :
    u.state = UVC_STATE_DISCONNECTED := by
  unfold uvc_bind_config at h
  simp only [] at h
  split_ifs at h
  simp only [Option.some.injEq] at h
  rw [← h]
  rfl

theorem step_effect (max : Nat) (s : uvc_device × uvc_world) (c : uvc_call) :
    ((uvc_step max s c).2.events = s.2.events ∧ (uvc_step max s c).1.state = s.1.state) ∨
    ∃ e, (uvc_step max s c).2.events = s.2.events ++ [e] ∧
      ((e.type = UVC_EVENT_CONNECT ∧ s.1.state = UVC_STATE_DISCONNECTED
          ∧ (uvc_step max s c).1.state = UVC_STATE_CONNECTED) ∨
       (e.type = UVC_EVENT_STREAMON ∧ s.1.state = UVC_STATE_CONNECTED
          ∧ (uvc_step max s c).1.state = UVC_STATE_STREAMING) ∨
       (e.type = UVC_EVENT_STREAMOFF ∧ s.1.state = UVC_STATE_STREAMING
          ∧ (uvc_step max s c).1.state = UVC_STATE_CONNECTED) ∨
       (e.type = UVC_EVENT_DISCONNECT
          ∧ (uvc_step max s c).1.state = UVC_STATE_DISCONNECTED) ∨
       ((e.type = UVC_EVENT_SETUP ∨ e.type = UVC_EVENT_DATA)
          ∧ (uvc_step max s c).1.state = s.1.state)) := by
  obtain ⟨uvc, w⟩ := s
  cases c with
  | disable =>
    right
    exact ⟨zero_event UVC_EVENT_DISCONNECT, rfl, Or.inr (Or.inr (Or.inr (Or.inl ⟨rfl, rfl⟩)))⟩
  | get_alt i =>
    left
    simp only [uvc_step, uvc_function_get_alt]
    split_ifs <;> exact ⟨rfl, rfl⟩
  | setup ctrl =>
    simp only [uvc_step, uvc_function_setup]
    split_ifs
    · exact Or.inl ⟨rfl, rfl⟩
    · exact Or.inl ⟨rfl, rfl⟩
    · exact Or.inr ⟨setup_event ctrl, rfl,
        Or.inr (Or.inr (Or.inr (Or.inr ⟨Or.inl rfl, rfl⟩)))⟩
  | ep0_complete req =>
    simp only [uvc_step, uvc_function_ep0_complete]
    split_ifs
    · exact Or.inr ⟨data_event req, rfl,
        Or.inr (Or.inr (Or.inr (Or.inr ⟨Or.inr rfl, rfl⟩)))⟩
    · exact Or.inl ⟨rfl, rfl⟩
  | set_alt i alt =>
    by_cases h1 : i = uvc.control_intf
    · by_cases h2 : alt = 0
      · cases hs : uvc.state
        · right
          refine ⟨connect_event w.speed, ?_, Or.inl ⟨rfl, rfl, ?_⟩⟩ <;>
            simp [uvc_step, uvc_function_set_alt, h1, h2, hs, v4l2_event_queue]
        · left; simp [uvc_step, uvc_function_set_alt, h1, h2, hs]
        · left; simp [uvc_step, uvc_function_set_alt, h1, h2, hs]
      · left; simp [uvc_step, uvc_function_set_alt, h1, h2]
    · by_cases h4 : i = uvc.streaming_intf
      · subst h4
        match alt with
        | 0 =>
          cases hs : uvc.state
          · left; simp [uvc_step, uvc_function_set_alt, h1, hs]
          · left; simp [uvc_step, uvc_function_set_alt, h1, hs]
          · right
            refine ⟨zero_event UVC_EVENT_STREAMOFF, ?_,
              Or.inr (Or.inr (Or.inl ⟨rfl, rfl, ?_⟩))⟩
            · cases he : uvc.video.ep <;>
                simp [uvc_step, uvc_function_set_alt, h1, hs, v4l2_event_queue,
                  usb_ep_disable_if, he]
            · simp [uvc_step, uvc_function_set_alt, h1, hs]
        | 1 =>
          cases hs : uvc.state
          · left; simp [uvc_step, uvc_function_set_alt, h1, hs]
          · right
            refine ⟨zero_event UVC_EVENT_STREAMON, ?_,
              Or.inr (Or.inl ⟨rfl, rfl, ?_⟩)⟩
            · cases he : uvc.video.ep <;>
                simp [uvc_step, uvc_function_set_alt, h1, hs, v4l2_event_queue,
                  usb_ep_enable_if, he]
            · simp [uvc_step, uvc_function_set_alt, h1, hs]
          · left; simp [uvc_step, uvc_function_set_alt, h1, hs]
        | n + 2 => left; simp [uvc_step, uvc_function_set_alt, h1]
      · left; simp [uvc_step, uvc_function_set_alt, h1, h4]

theorem streamon_after_connect_append (E : List v4l2_event) (x : v4l2_event)
    (hE : ∀ pre e post, E = pre ++ e :: post → e.type = UVC_EVENT_STREAMON →
      ∃ c ∈ pre, c.type = UVC_EVENT_CONNECT)
    (hx : x.type = UVC_EVENT_STREAMON → ∃ c ∈ E, c.type = UVC_EVENT_CONNECT) :
    ∀ pre e post, E ++ [x] = pre ++ e :: post → e.type = UVC_EVENT_STREAMON →
      ∃ c ∈ pre, c.type = UVC_EVENT_CONNECT := by
  intro pre e post h he
  rcases List.eq_nil_or_concat post with hp | ⟨q, y, hp⟩
  · subst hp
    have h2 : E ++ [x] = pre ++ [e] := h
    obtain ⟨h3, h4⟩ := List.append_inj' h2 rfl
    have h5 : x = e := by simpa using h4
    subst h3
    exact hx (h5 ▸ he)
  · subst hp
    have h2 : E ++ [x] = (pre ++ e :: q) ++ [y] := by
      rw [h]; simp
    obtain ⟨h3, -⟩ := List.append_inj' h2 rfl
    exact hE pre e q h3 he

theorem run_events (max : Nat) (calls : List uvc_call) (s : uvc_device × uvc_world)
    (base E0 : List v4l2_event) (h0 : s.2.events = base ++ E0)
    (h1 : s.1.state ≠ UVC_STATE_DISCONNECTED → ∃ c ∈ E0, c.type = UVC_EVENT_CONNECT)
    (h2 : ∀ pre e post, E0 = pre ++ e :: post → e.type = UVC_EVENT_STREAMON →
      ∃ c ∈ pre, c.type = UVC_EVENT_CONNECT) :
    ∃ E, (uvc_run max s calls).2.events = base ++ E ∧
      ((uvc_run max s calls).1.state ≠ UVC_STATE_DISCONNECTED →
        ∃ c ∈ E, c.type = UVC_EVENT_CONNECT) ∧
      ∀ pre e post, E = pre ++ e :: post → e.type = UVC_EVENT_STREAMON →
        ∃ c ∈ pre, c.type = UVC_EVENT_CONNECT := by
  induction calls generalizing s E0 with
  | nil => exact ⟨E0, h0, h1, h2⟩
  | cons c t ih =>
    show ∃ E, (uvc_run max (uvc_step max s c) t).2.events = base ++ E ∧ _
    rcases step_effect max s c with ⟨he, hs⟩ | ⟨x, he, hx⟩
    · exact ih (uvc_step max s c) E0 (by rw [he, h0]) (by rw [hs]; exact h1) h2
    · have hmem : ∀ {p : v4l2_event → Prop}, (∃ c ∈ E0, p c) → ∃ c ∈ E0 ++ [x], p c :=
        fun ⟨c, hc, hp⟩ => ⟨c, List.mem_append_left _ hc, hp⟩
      have hlast : x ∈ E0 ++ [x] := List.mem_append_right _ (List.mem_singleton_self x)
      refine ih (uvc_step max s c) (E0 ++ [x]) (by rw [he, h0, List.append_assoc]) ?_
        (streamon_after_connect_append E0 x h2 ?_)
      · intro hn
        rcases hx with ⟨ht, -, -⟩ | ⟨-, hc, -⟩ | ⟨-, hc, -⟩ | ⟨-, hd⟩ | ⟨-, hsame⟩
        · exact ⟨x, hlast, ht⟩
        · exact hmem (h1 (by rw [hc]; decide))
        · exact hmem (h1 (by rw [hc]; decide))
        · exact absurd hd hn
        · exact hmem (h1 (by rw [← hsame]; exact hn))
      · intro hon
        rcases hx with ⟨ht, -, -⟩ | ⟨-, hc, -⟩ | ⟨ht, -, -⟩ | ⟨ht, -⟩ | ⟨ht, -⟩
        · rw [ht] at hon; cases hon
        · exact h1 (by rw [hc]; decide)
        · rw [ht] at hon; cases hon
        · rw [ht] at hon; cases hon
        · rcases ht with ht | ht <;> rw [ht] at hon <;> cases hon

/-- C24. Streaming is entered only from Connected. For every device, surroundings and
single call of `uvc_function_set_alt`, `uvc_function_get_alt`, `uvc_function_setup`,
`uvc_function_ep0_complete` or `uvc_function_disable` (and every value of
`UVC_MAX_REQUEST_SIZE`): if the state after the call is Streaming and the state before
is not, the state before is Connected and the call is `set_alt(i, 1)` with `i` the
streaming interface (equal to `streaming_intf`, different from `control_intf`).
No single call made in state Disconnected leaves the state Streaming. And for every
sequence of calls made from state Disconnected the events queued before are kept, and
every StreamOn event the sequence queues comes after a Connect event the sequence
queued. -/
theorem streaming_only_from_connected (max : Nat) (uvc : uvc_device) (w : uvc_world) :
    (∀ c : uvc_call, (uvc_step max (uvc, w) c).1.state = UVC_STATE_STREAMING →
      uvc.state ≠ UVC_STATE_STREAMING →
      uvc.state = UVC_STATE_CONNECTED ∧
        c = uvc_call.set_alt uvc.streaming_intf 1 ∧ uvc.streaming_intf ≠ uvc.control_intf) ∧
    (∀ c : uvc_call, uvc.state = UVC_STATE_DISCONNECTED →
      (uvc_step max (uvc, w) c).1.state ≠ UVC_STATE_STREAMING) ∧
    (∀ calls : List uvc_call, uvc.state = UVC_STATE_DISCONNECTED →
      ∃ E, (uvc_run max (uvc, w) calls).2.events = w.events ++ E ∧
        ∀ pre e post, E = pre ++ e :: post → e.type = UVC_EVENT_STREAMON →
          ∃ c ∈ pre, c.type = UVC_EVENT_CONNECT) := by
  have key : ∀ c : uvc_call, (uvc_step max (uvc, w) c).1.state = UVC_STATE_STREAMING →
      uvc.state ≠ UVC_STATE_STREAMING →
      uvc.state = UVC_STATE_CONNECTED ∧
        c = uvc_call.set_alt uvc.streaming_intf 1 ∧ uvc.streaming_intf ≠ uvc.control_intf := by
    intro c hpost hpre
    cases c with
    | disable => simp [uvc_step, uvc_function_disable] at hpost
    | get_alt i =>
      simp only [uvc_step, uvc_function_get_alt] at hpost
      split_ifs at hpost <;> exact absurd hpost hpre
    | setup ctrl =>
      simp only [uvc_step, uvc_function_setup] at hpost
      split_ifs at hpost <;> exact absurd hpost hpre
    | ep0_complete req =>
      simp only [uvc_step, uvc_function_ep0_complete] at hpost
      split_ifs at hpost <;> exact absurd hpost hpre
    | set_alt i alt =>
      by_cases h1 : i = uvc.control_intf
      · by_cases h2 : alt = 0
        · cases hs : uvc.state <;>
            simp [uvc_step, uvc_function_set_alt, h1, h2, hs] at hpost hpre
        · simp [uvc_step, uvc_function_set_alt, h1, h2] at hpost
          exact absurd hpost hpre
      · by_cases h4 : i = uvc.streaming_intf
        · subst h4
          match alt with
          | 0 =>
            cases hs : uvc.state <;>
              simp [uvc_step, uvc_function_set_alt, h1, hs] at hpost hpre
          | 1 =>
            cases hs : uvc.state
            · simp [uvc_step, uvc_function_set_alt, h1, hs] at hpost
            · exact ⟨rfl, rfl, h1⟩
            · exact absurd hs hpre
          | n + 2 =>
            simp [uvc_step, uvc_function_set_alt, h1] at hpost
            exact absurd hpost hpre
        · simp [uvc_step, uvc_function_set_alt, h1, h4] at hpost
          exact absurd hpost hpre
  refine ⟨key, ?_, ?_⟩
  · intro c hd hpost
    have := (key c hpost (by rw [hd]; decide)).1
    rw [hd] at this
    cases this
  · intro calls hd
    obtain ⟨E, hE, -, h3⟩ := run_events max calls (uvc, w) w.events [] (by simp)
      (fun hn => absurd hd hn) (fun pre e post h => by simp at h)
    exact ⟨E, hE, h3⟩

/-- C24 at the sample device in state Connected: the call `set_alt(1, 1)` moves it to
Streaming, and it is the call the theorem names. -/
theorem streaming_only_from_connected_witness :
    ((uvc_step 64 (sample_connected, sample_world) (uvc_call.set_alt 1 1)).1.state
        = UVC_STATE_STREAMING ∧
      sample_connected.state ≠ UVC_STATE_STREAMING) ∧
    sample_connected.state = UVC_STATE_CONNECTED ∧
    uvc_call.set_alt 1 1 = uvc_call.set_alt sample_connected.streaming_intf 1 ∧
    sample_connected.streaming_intf ≠ sample_connected.control_intf :=
  ⟨⟨by decide, by decide⟩,
   (streaming_only_from_connected 64 sample_connected sample_world).1
     (uvc_call.set_alt 1 1) (by decide) (by decide)⟩

theorem bind_keeps_state (f : uvc_function) (o : bind_calls) :
    (uvc_function_bind f o).2.uvc.state = f.uvc.state := by
  unfold uvc_function_bind
  simp only []
  cases h1 : o.control_ep with
  | none => rfl
  | some p1 =>
    cases h2 : o.streaming_ep with
    | none => rfl
    | some p2 =>
      simp only []
      cases hv : o.video with
      | none => simp only [uvc_register_video, hv]; split_ifs <;> rfl
      | some v => simp only [uvc_register_video, hv]; split_ifs <;> rfl

theorem step_keeps_endpoint (max : Nat) (s : uvc_device × uvc_world) (c : uvc_call) :
    (uvc_step max s c).1.video.ep = s.1.video.ep := by
  obtain ⟨uvc, w⟩ := s
  cases c with
  | disable => rfl
  | get_alt i =>
    simp only [uvc_step, uvc_function_get_alt]
    split_ifs <;> rfl
  | setup ctrl =>
    simp only [uvc_step, uvc_function_setup]
    split_ifs <;> rfl
  | ep0_complete req =>
    simp only [uvc_step, uvc_function_ep0_complete]
    split_ifs <;> rfl
  | set_alt i alt =>
    simp only [uvc_step, uvc_function_set_alt]
    split_ifs
    all_goals first
      | rfl
      | (split <;> rfl)

theorem run_keeps_endpoint (max : Nat) (calls : List uvc_call) (s : uvc_device × uvc_world) :
    (uvc_run max s calls).1.video.ep = s.1.video.ep := by
  induction calls generalizing s with
  | nil => rfl
  | cons c t ih =>
    show (uvc_run max (uvc_step max s c) t).1.video.ep = _
    rw [ih, step_keeps_endpoint]

theorem bind_sets_endpoint (f : uvc_function) (o : bind_calls)
    (h : (uvc_function_bind f o).1 = 0) :
    ∃ e, (uvc_function_bind f o).2.uvc.video.ep = some e := by
  cases h1 : o.control_ep with
  | none => simp [uvc_function_bind, h1, EINVAL] at h
  | some p1 =>
    obtain ⟨cep, caddr⟩ := p1
    cases h2 : o.streaming_ep with
    | none => simp [uvc_function_bind, h1, h2, EINVAL] at h
    | some p2 =>
      obtain ⟨sep, saddr⟩ := p2
      refine ⟨sep, ?_⟩
      cases hv : o.video <;>
        simp only [uvc_function_bind, h1, h2, uvc_register_video, hv] <;>
        split_ifs <;> rfl

theorem endpoint_bound_after_bind (max : Nat) (f : uvc_function) (o : bind_calls)
    (w : uvc_world) (calls : List uvc_call) (h : (uvc_function_bind f o).1 = 0) :
    ∃ e, (uvc_run max ((uvc_function_bind f o).2.uvc, w) calls).1.video.ep = some e := by
  obtain ⟨e, he⟩ := bind_sets_endpoint f o h
  exact ⟨e, by rw [run_keeps_endpoint]; exact he⟩

end FUvc
